import Mathlib

/-!
Verification of the rice-mill financial engine.

This file is a shallow embedding of the computation pipeline of
src/rice_mill_dashboard_enhanced.py: the function
calculate_comprehensive_financials (capital structure, production,
revenue, costs, profit cascade, break-even, 5-year projection) and the
numeric rule predicates of generate_ai_insights.  Python floats are
modelled as rational numbers; the special value float('inf') produced
at the debt-equity guard is modelled by an explicit constructor, and a
Python ZeroDivisionError is modelled by Option (none = the call raises).
-/

namespace RiceMill

/-- All user-configurable parameters consumed by the engine (the flat
key-to-value configuration collected by the form).  Every numeric field
of the Python dict is a field here; dict defaults are irrelevant because
the caller always supplies every key. -/
structure Inputs where
  land_cost : ℚ
  building_cost : ℚ
  machinery_cost : ℚ
  electrical_cost : ℚ
  preoperative_cost : ℚ
  misc_fixed_assets : ℚ
  working_capital : ℚ
  loan_amount : ℚ
  loan_interest_rate : ℚ
  loan_tenure : ℕ
  hours_per_day : ℚ
  days_per_month : ℚ
  recovery_rate : ℚ
  sale_price_per_kg : ℚ
  bran_price_per_kg : ℚ
  husk_price_per_kg : ℚ
  broken_rice_price_per_kg : ℚ
  paddy_price_per_quintal : ℚ
  manager_salary : ℚ
  supervisor_salary : ℚ
  skilled_workers_salary : ℚ
  num_skilled_workers : ℚ
  unskilled_workers_salary : ℚ
  num_unskilled_workers : ℚ
  watchman_salary : ℚ
  power_cost_monthly : ℚ
  water_cost_monthly : ℚ
  fuel_cost_monthly : ℚ
  maintenance_percentage : ℚ
  insurance_percentage : ℚ
  admin_expenses_monthly : ℚ
  packing_cost_per_kg : ℚ
  transport_cost_per_kg : ℚ
  tax_rate : ℚ
  annual_growth_rate : ℚ
  deriving DecidableEq

/-- One row of the 5-year projection table (the dict appended to
yearly_data, lines 1208-1222 of the source). -/
structure YearRow where
  year : ℕ
  revenue : ℚ
  operating_costs : ℚ
  ebitda : ℚ
  depreciation : ℚ
  ebit : ℚ
  interest : ℚ
  pbt : ℚ
  tax : ℚ
  pat : ℚ
  cash_flow : ℚ
  cumulative_cash : ℚ
  loan_balance : ℚ
  deriving DecidableEq

/-- The single-year figures the projection loop closes over
(the loop at lines 1182-1222 reads these and the two fold variables). -/
structure ProjCtx where
  total_annual_revenue : ℚ
  total_operating_costs : ℚ
  annual_depreciation : ℚ
  loan_interest_rate : ℚ
  annual_loan_payment : ℚ
  tax_rate : ℚ
  annual_growth : ℚ
  deriving DecidableEq

/-- One iteration of the projection loop body (lines 1183-1222): takes the
fold state (cumulative_cash, loan_balance) and the year number, produces
the emitted row; the next state is read off the row's cumulative_cash and
loan_balance fields, exactly as the Python mutables after the iteration. -/
def projStep (c : ProjCtx) (cum bal : ℚ) (year : ℕ) : YearRow :=
  let growth_factor := (1 + c.annual_growth) ^ (year - 1)
  let yr_revenue := c.total_annual_revenue * growth_factor
  let yr_operating_costs := c.total_operating_costs * growth_factor
  let yr_depreciation := c.annual_depreciation
  let yr_interest := if 0 < bal then bal * c.loan_interest_rate else 0
  let yr_principal :=
    if 0 < bal then min (c.annual_loan_payment - yr_interest) bal else 0
  let yr_ebitda := yr_revenue - yr_operating_costs
  let yr_ebit := yr_ebitda - yr_depreciation
  let yr_pbt := yr_ebit - yr_interest
  let yr_tax := max 0 (yr_pbt * c.tax_rate)
  let yr_pat := yr_pbt - yr_tax
  let yr_cash_flow := yr_pat + yr_depreciation - yr_principal
  { year := year
    revenue := yr_revenue
    operating_costs := yr_operating_costs
    ebitda := yr_ebitda
    depreciation := yr_depreciation
    ebit := yr_ebit
    interest := yr_interest
    pbt := yr_pbt
    tax := yr_tax
    pat := yr_pat
    cash_flow := yr_cash_flow
    cumulative_cash := cum + yr_cash_flow
    loan_balance := bal - yr_principal }

/-- The projection loop: for year in years, run the body and thread the
two fold variables through.  The engine calls it with years = [1,2,3,4,5]. -/
def projectYears (c : ProjCtx) : List ℕ → ℚ → ℚ → List YearRow
  | [], _, _ => []
  | y :: ys, cum, bal =>
    let row := projStep c cum bal y
    row :: projectYears c ys row.cumulative_cash row.loan_balance

/-! Locals of calculate_comprehensive_financials, one definition per
Python local, in source order (lines 1005-1230). -/

/-- Sum of the capital-cost line items (line 1014). -/
def total_fixed_capital (i : Inputs) : ℚ :=
  i.land_cost + i.building_cost + i.machinery_cost + i.electrical_cost +
    i.preoperative_cost + i.misc_fixed_assets

/-- Line 1016. -/
def total_project_cost (i : Inputs) : ℚ :=
  total_fixed_capital i + i.working_capital

/-- Line 1020: no validation, no clamping. -/
def equity_amount (i : Inputs) : ℚ :=
  total_project_cost i - i.loan_amount

/-- Line 1021: the rate as a fraction. -/
def interest_frac (i : Inputs) : ℚ := i.loan_interest_rate / 100

/-- Lines 1025-1032: the annuity EMI, or 0 when there is no positive loan
or no positive rate. -/
def emi (i : Inputs) : ℚ :=
  if 0 < i.loan_amount ∧ 0 < interest_frac i then
    let monthly_rate := interest_frac i / 12
    let num_payments := i.loan_tenure * 12
    i.loan_amount * monthly_rate * (1 + monthly_rate) ^ num_payments /
      ((1 + monthly_rate) ^ num_payments - 1)
  else 0

/-- Lines 1029 and 1032. -/
def annual_loan_payment (i : Inputs) : ℚ :=
  if 0 < i.loan_amount ∧ 0 < interest_frac i then emi i * 12 else 0

/-- Line 1042: tph is the fixed constant 5.0. -/
def paddy_tonnes_day (i : Inputs) : ℚ := 5 * i.hours_per_day

/-- Line 1038. -/
def working_days_per_year (i : Inputs) : ℚ := i.days_per_month * 12

/-- Line 1044. -/
def paddy_tonnes_year (i : Inputs) : ℚ :=
  paddy_tonnes_day i * working_days_per_year i

/-- Lines 1039 and 1046. -/
def rice_tonnes_year (i : Inputs) : ℚ :=
  paddy_tonnes_year i * (i.recovery_rate / 100)

/-- Line 1047. -/
def rice_kg_year (i : Inputs) : ℚ := rice_tonnes_year i * 1000

/-- Line 1054: by-product stream, 8 percent of paddy. -/
def bran_tonnes_year (i : Inputs) : ℚ := paddy_tonnes_year i * (8 / 100)

/-- Line 1055. -/
def husk_tonnes_year (i : Inputs) : ℚ := paddy_tonnes_year i * (20 / 100)

/-- Line 1056. -/
def broken_rice_tonnes_year (i : Inputs) : ℚ :=
  paddy_tonnes_year i * (7 / 100)

/-- Line 1064. -/
def annual_revenue_rice (i : Inputs) : ℚ :=
  rice_kg_year i * i.sale_price_per_kg

/-- Line 1065. -/
def annual_revenue_bran (i : Inputs) : ℚ :=
  bran_tonnes_year i * 1000 * i.bran_price_per_kg

/-- Line 1066. -/
def annual_revenue_husk (i : Inputs) : ℚ :=
  husk_tonnes_year i * 1000 * i.husk_price_per_kg

/-- Line 1067. -/
def annual_revenue_broken (i : Inputs) : ℚ :=
  broken_rice_tonnes_year i * 1000 * i.broken_rice_price_per_kg

/-- Line 1068. -/
def total_annual_revenue (i : Inputs) : ℚ :=
  annual_revenue_rice i + annual_revenue_bran i + annual_revenue_husk i +
    annual_revenue_broken i

/-- Line 1074: tonnes to quintals times price per quintal. -/
def annual_paddy_cost (i : Inputs) : ℚ :=
  paddy_tonnes_year i * 10 * i.paddy_price_per_quintal

/-- Lines 1077-1084. -/
def total_manpower_cost (i : Inputs) : ℚ :=
  i.manager_salary * 12 + i.supervisor_salary * 12 +
    i.skilled_workers_salary * i.num_skilled_workers * 12 +
    i.unskilled_workers_salary * i.num_unskilled_workers * 12 +
    i.watchman_salary * 12

/-- Line 1090. -/
def annual_utilities (i : Inputs) : ℚ :=
  (i.power_cost_monthly + i.water_cost_monthly + i.fuel_cost_monthly) * 12

/-- Line 1093. -/
def annual_maintenance (i : Inputs) : ℚ :=
  i.maintenance_percentage / 100 * total_fixed_capital i

/-- Line 1096. -/
def annual_insurance (i : Inputs) : ℚ :=
  i.insurance_percentage / 100 * total_fixed_capital i

/-- Line 1099. -/
def admin_expenses (i : Inputs) : ℚ := i.admin_expenses_monthly * 12

/-- Line 1104. -/
def annual_packing_cost (i : Inputs) : ℚ :=
  rice_kg_year i * i.packing_cost_per_kg

/-- Line 1105. -/
def annual_transport_cost (i : Inputs) : ℚ :=
  rice_kg_year i * i.transport_cost_per_kg

/-- Lines 1108-1117. -/
def total_operating_costs (i : Inputs) : ℚ :=
  annual_paddy_cost i + total_manpower_cost i + annual_utilities i +
    annual_maintenance i + annual_insurance i + admin_expenses i +
    annual_packing_cost i + annual_transport_cost i

/-- Lines 1125-1130: straight-line depreciation, building 5 percent,
machinery and electrical 10 percent, other assets 15 percent. -/
def annual_depreciation (i : Inputs) : ℚ :=
  i.building_cost * (5 / 100) + i.machinery_cost * (10 / 100) +
    i.electrical_cost * (10 / 100) +
    (i.preoperative_cost + i.misc_fixed_assets) * (15 / 100)

/-- Line 1134. -/
def annual_interest (i : Inputs) : ℚ := i.loan_amount * interest_frac i

/-- Line 1137. -/
def gross_profit (i : Inputs) : ℚ :=
  total_annual_revenue i - annual_paddy_cost i

/-- Line 1138. -/
def ebitda (i : Inputs) : ℚ :=
  total_annual_revenue i - total_operating_costs i

/-- Line 1139. -/
def ebit (i : Inputs) : ℚ := ebitda i - annual_depreciation i

/-- Line 1140. -/
def pbt (i : Inputs) : ℚ := ebit i - annual_interest i

/-- Line 1143. -/
def tax_frac (i : Inputs) : ℚ := i.tax_rate / 100

/-- Line 1144. -/
def tax_amount (i : Inputs) : ℚ := max 0 (pbt i * tax_frac i)

/-- Line 1145. -/
def pat (i : Inputs) : ℚ := pbt i - tax_amount i

/-- Line 1148. -/
def principal_repayment (i : Inputs) : ℚ :=
  if 0 < annual_loan_payment i
  then annual_loan_payment i - annual_interest i else 0

/-- Line 1149. -/
def annual_cash_flow (i : Inputs) : ℚ :=
  pat i + annual_depreciation i - principal_repayment i

/-- Line 1152: guarded ratio, 0 on zero revenue. -/
def gross_margin (i : Inputs) : ℚ :=
  if 0 < total_annual_revenue i
  then gross_profit i / total_annual_revenue i * 100 else 0

/-- Line 1153. -/
def ebitda_margin (i : Inputs) : ℚ :=
  if 0 < total_annual_revenue i
  then ebitda i / total_annual_revenue i * 100 else 0

/-- Line 1154. -/
def net_margin (i : Inputs) : ℚ :=
  if 0 < total_annual_revenue i
  then pat i / total_annual_revenue i * 100 else 0

/-- Line 1157. -/
def roi_percent (i : Inputs) : ℚ :=
  if 0 < total_project_cost i
  then pat i / total_project_cost i * 100 else 0

/-- Line 1158: None when the cash flow is not positive. -/
def payback_years (i : Inputs) : Option ℚ :=
  if 0 < annual_cash_flow i
  then some (total_project_cost i / annual_cash_flow i) else none

/-- Line 1162. -/
def annual_fixed_costs (i : Inputs) : ℚ :=
  total_manpower_cost i + annual_utilities i + annual_maintenance i +
    annual_insurance i + admin_expenses i + annual_depreciation i +
    annual_interest i

/-- Line 1165: guarded, 0 on zero production. -/
def variable_cost_per_unit (i : Inputs) : ℚ :=
  if 0 < rice_kg_year i
  then (annual_paddy_cost i + annual_packing_cost i +
    annual_transport_cost i) / rice_kg_year i
  else 0

/-- Line 1168: guarded, 0 on zero production. -/
def revenue_per_kg_rice (i : Inputs) : ℚ :=
  if 0 < rice_kg_year i then total_annual_revenue i / rice_kg_year i else 0

/-- Line 1171. -/
def contribution_per_unit (i : Inputs) : ℚ :=
  revenue_per_kg_rice i - variable_cost_per_unit i

/-- Line 1172: 0 by convention when the contribution is not positive. -/
def breakeven_kg (i : Inputs) : ℚ :=
  if 0 < contribution_per_unit i
  then annual_fixed_costs i / contribution_per_unit i else 0

/-- Line 1173. -/
def breakeven_revenue (i : Inputs) : ℚ :=
  breakeven_kg i * revenue_per_kg_rice i

/-- Line 1176. -/
def annual_growth (i : Inputs) : ℚ := i.annual_growth_rate / 100

/-- The constants the projection loop closes over. -/
def projCtx (i : Inputs) : ProjCtx :=
  { total_annual_revenue := total_annual_revenue i
    total_operating_costs := total_operating_costs i
    annual_depreciation := annual_depreciation i
    loan_interest_rate := interest_frac i
    annual_loan_payment := annual_loan_payment i
    tax_rate := tax_frac i
    annual_growth := annual_growth i }

/-- Lines 1177-1222: the 5-year projection, starting the fold at
cumulative_cash = minus total_project_cost and loan_balance = loan_amount. -/
def yearly_data (i : Inputs) : List YearRow :=
  projectYears (projCtx i) [1, 2, 3, 4, 5] (-(total_project_cost i))
    i.loan_amount

/-- The result bundle returned by calculate_comprehensive_financials
(lines 1231-1306); the numeric fields the insight engine and the claims
read.  Field names follow the keys of the returned dict. -/
structure Results where
  total_fixed_capital : ℚ
  working_capital : ℚ
  total_project_cost : ℚ
  loan_amount : ℚ
  equity_amount : ℚ
  emi : ℚ
  annual_loan_payment : ℚ
  paddy_tonnes_year : ℚ
  rice_kg_year : ℚ
  total_annual_revenue : ℚ
  annual_paddy_cost : ℚ
  total_manpower_cost : ℚ
  annual_utilities : ℚ
  annual_maintenance : ℚ
  annual_insurance : ℚ
  admin_expenses : ℚ
  annual_packing_cost : ℚ
  annual_transport_cost : ℚ
  total_operating_costs : ℚ
  annual_depreciation : ℚ
  annual_interest : ℚ
  gross_profit : ℚ
  ebitda : ℚ
  ebit : ℚ
  pbt : ℚ
  tax_amount : ℚ
  pat : ℚ
  annual_cash_flow : ℚ
  gross_margin : ℚ
  ebitda_margin : ℚ
  net_margin : ℚ
  roi_percent : ℚ
  payback_years : Option ℚ
  breakeven_kg : ℚ
  breakeven_revenue : ℚ
  revenue_per_kg_rice : ℚ
  variable_cost_per_unit : ℚ
  contribution_per_unit : ℚ
  yearly_data : List YearRow
  deriving DecidableEq

/-- The whole engine, returning the result bundle. -/
def calculateComprehensiveFinancials (i : Inputs) : Results :=
  { total_fixed_capital := total_fixed_capital i
    working_capital := i.working_capital
    total_project_cost := total_project_cost i
    loan_amount := i.loan_amount
    equity_amount := equity_amount i
    emi := emi i
    annual_loan_payment := annual_loan_payment i
    paddy_tonnes_year := paddy_tonnes_year i
    rice_kg_year := rice_kg_year i
    total_annual_revenue := total_annual_revenue i
    annual_paddy_cost := annual_paddy_cost i
    total_manpower_cost := total_manpower_cost i
    annual_utilities := annual_utilities i
    annual_maintenance := annual_maintenance i
    annual_insurance := annual_insurance i
    admin_expenses := admin_expenses i
    annual_packing_cost := annual_packing_cost i
    annual_transport_cost := annual_transport_cost i
    total_operating_costs := total_operating_costs i
    annual_depreciation := annual_depreciation i
    annual_interest := annual_interest i
    gross_profit := gross_profit i
    ebitda := ebitda i
    ebit := ebit i
    pbt := pbt i
    tax_amount := tax_amount i
    pat := pat i
    annual_cash_flow := annual_cash_flow i
    gross_margin := gross_margin i
    ebitda_margin := ebitda_margin i
    net_margin := net_margin i
    roi_percent := roi_percent i
    payback_years := payback_years i
    breakeven_kg := breakeven_kg i
    breakeven_revenue := breakeven_revenue i
    revenue_per_kg_rice := revenue_per_kg_rice i
    variable_cost_per_unit := variable_cost_per_unit i
    contribution_per_unit := contribution_per_unit i
    yearly_data := yearly_data i }

/-- The break-even fixed-cost base recomputed from the fields of the
returned result bundle (the same seven components summed at line 1162). -/
def annual_fixed_costs_of (r : Results) : ℚ :=
  r.total_manpower_cost + r.annual_utilities + r.annual_maintenance +
    r.annual_insurance + r.admin_expenses + r.annual_depreciation +
    r.annual_interest

/-! The diagnostic engine generate_ai_insights (lines 206-999), modelled
at the level of rule-group emissions: which category each threshold group
contributes.  The message, detail and action strings are presentation
text that the engine formats around the same numbers; they are not part
of the numeric model (only their two unguarded divisions matter, and
those are captured explicitly below). -/

/-- A Python float that may be the special value float('inf'), which the
debt-equity guard produces on non-positive equity (line 480). -/
inductive PyFloat where
  | fin : ℚ → PyFloat
  | inf : PyFloat
  deriving DecidableEq

/-- Line 480: debt_equity_ratio is loan over equity when equity is
positive, and float('inf') otherwise; never the 0 sentinel. -/
def debt_equity (r : Results) : PyFloat :=
  if 0 < r.equity_amount then .fin (r.loan_amount / r.equity_amount)
  else .inf

/-- Line 963: raw_material_percent is computed with no guard; when
total_annual_revenue is zero the Python division raises
ZeroDivisionError, modelled as none. -/
def raw_material_percent (r : Results) : Option ℚ :=
  if r.total_annual_revenue = 0 then none
  else some (r.annual_paddy_cost / r.total_annual_revenue * 100)

/-- Insight category: the four keys of the insights dict (lines 208-213). -/
inductive Category where
  | critical
  | warning
  | recommendation
  | positive
  deriving DecidableEq

/-- The thirteen independent threshold rule groups of the engine, in
source order. -/
inductive RuleGroup where
  | margin
  | breakevenCap
  | debtEquityGrp
  | cashFlowGrp
  | workingCap
  | recoveryGrp
  | hoursGrp
  | roi5
  | paybackGrp
  | priceGrp
  | rawMaterial
  | manpowerGrp
  | seasonal
  deriving DecidableEq

/-- One emitted insight, reduced to its rule group and category. -/
structure Insight where
  group : RuleGroup
  category : Category
  deriving DecidableEq

/-- Line 216: the guarded profit-margin ratio of the insight engine. -/
def profit_margin (r : Results) : ℚ :=
  if 0 < r.total_annual_revenue
  then r.pat / r.total_annual_revenue * 100 else 0

/-- Lines 216-324: net-profit-margin group, guarded ratio then three
thresholds.  Each branch builds its insight's detail text with unguarded
divisions, so the branch raises ZeroDivisionError (none) instead of
emitting: the critical branch divides by rice_kg_year and by
total_annual_revenue (lines 236-237), the warning and positive branches
divide by rice_kg_year (lines 265-270 and 298-299). -/
def marginRule (r : Results) : Option (List Insight) :=
  if profit_margin r < 5 then
    if r.rice_kg_year = 0 ∨ r.total_annual_revenue = 0 then none
    else some [⟨.margin, .critical⟩]
  else if profit_margin r < 10 then
    if r.rice_kg_year = 0 then none
    else some [⟨.margin, .warning⟩]
  else if 15 < profit_margin r then
    if r.rice_kg_year = 0 then none
    else some [⟨.margin, .positive⟩]
  else some []

/-- Line 327: the guarded break-even-capacity ratio. -/
def breakeven_capacity (r : Results) : ℚ :=
  if 0 < r.rice_kg_year
  then r.breakeven_kg / r.rice_kg_year * 100 else 0

/-- Lines 327-477: break-even-capacity group; the final else emits the
positive insight.  No branch divides by a result value, so the group
never raises. -/
def breakevenRule (r : Results) : Option (List Insight) :=
  if 80 < breakeven_capacity r then some [⟨.breakevenCap, .critical⟩]
  else if 60 < breakeven_capacity r then some [⟨.breakevenCap, .warning⟩]
  else some [⟨.breakevenCap, .positive⟩]

/-- Lines 480-627: debt-equity group; float('inf') compares greater than
3, so non-positive equity lands in the warning branch.  The warning
branch's detail text divides by total_project_cost (line 489) and by
equity_amount (line 509), so it raises when either is zero; the
recommendation and positive branches divide by total_project_cost
(lines 535 and 584; their equity divisions at 545 and 594 cannot raise
there since those branches have positive equity). -/
def debtEquityRule (r : Results) : Option (List Insight) :=
  match debt_equity r with
  | .inf =>
    if r.total_project_cost = 0 ∨ r.equity_amount = 0 then none
    else some [⟨.debtEquityGrp, .warning⟩]
  | .fin dr =>
    if 3 < dr then
      if r.total_project_cost = 0 ∨ r.equity_amount = 0 then none
      else some [⟨.debtEquityGrp, .warning⟩]
    else if dr < 1 then
      if r.total_project_cost = 0 then none
      else some [⟨.debtEquityGrp, .recommendation⟩]
    else
      if r.total_project_cost = 0 then none
      else some [⟨.debtEquityGrp, .positive⟩]

/-- Line 631. -/
def monthly_cash_flow (r : Results) : ℚ := r.annual_cash_flow / 12

/-- Lines 629-777: cash-flow group.  The positive branch divides by emi
(line 753), so it raises whenever emi is zero (any zero-loan input with
non-negative cash flow); the critical branch's division by the absolute
monthly deficit (line 658) and the warning branch's division by the
positive monthly gap (line 701) cannot raise in their branches. -/
def cashFlowRule (r : Results) : Option (List Insight) :=
  if r.annual_cash_flow < 0 then some [⟨.cashFlowGrp, .critical⟩]
  else if monthly_cash_flow r < r.emi then some [⟨.cashFlowGrp, .warning⟩]
  else
    if r.emi = 0 then none
    else some [⟨.cashFlowGrp, .positive⟩]

/-- Line 780: the guarded working-capital-months ratio. -/
def working_capital_months (r : Results) : ℚ :=
  if 0 < r.total_operating_costs
  then r.working_capital / r.total_operating_costs * 12 else 0

/-- Lines 780-793: working-capital-months group; its message strings
contain no division, so it never raises. -/
def workingCapitalRule (r : Results) : Option (List Insight) :=
  if working_capital_months r < 1 then some [⟨.workingCap, .warning⟩]
  else if 4 < working_capital_months r then
    some [⟨.workingCap, .recommendation⟩]
  else some []

/-- Lines 796-809: recovery-rate group, over the raw input percent;
never raises. -/
def recoveryRule (i : Inputs) : Option (List Insight) :=
  if i.recovery_rate < 62 then some [⟨.recoveryGrp, .warning⟩]
  else if 68 < i.recovery_rate then some [⟨.recoveryGrp, .positive⟩]
  else some []

/-- Lines 812-825: operating-hours group; never raises. -/
def hoursRule (i : Inputs) : Option (List Insight) :=
  if i.hours_per_day < 8 then some [⟨.hoursGrp, .recommendation⟩]
  else if 16 < i.hours_per_day then some [⟨.hoursGrp, .warning⟩]
  else some []

/-- Line 828: total of the projected PAT column. -/
def total_5yr_profit (r : Results) : ℚ := (r.yearly_data.map YearRow.pat).sum

/-- Line 829: the guarded 5-year-ROI ratio. -/
def roi_5yr (r : Results) : ℚ :=
  if 0 < r.total_project_cost
  then total_5yr_profit r / r.total_project_cost * 100 else 0

/-- Lines 828-931: 5-year-ROI group, over the summed projection PAT.
The warning branch's detail divides by rice_kg_year (line 856) and the
positive branch's detail divides by equity_amount (line 907), so those
branches raise on the corresponding zero denominator. -/
def roi5Rule (r : Results) : Option (List Insight) :=
  if roi_5yr r < 50 then
    if r.rice_kg_year = 0 then none
    else some [⟨.roi5, .warning⟩]
  else if 100 < roi_5yr r then
    if r.equity_amount = 0 then none
    else some [⟨.roi5, .positive⟩]
  else some []

/-- Outcome of the payback search (lines 933-949): a positive insight
naming a year, the long-payback warning, or nothing (the inner loop can
in principle fall through without appending). -/
inductive PaybackVerdict where
  | positiveYear : ℕ → PaybackVerdict
  | longPayback : PaybackVerdict
  | noInsight : PaybackVerdict
  deriving DecidableEq

/-- Index of the first row whose cumulative cash is at least e, scanning
in order, exactly as the for-loop with break at lines 936-943. -/
def firstCrossIdx (e : ℚ) : List YearRow → Option ℕ
  | [] => none
  | row :: rest =>
    if e ≤ row.cumulative_cash then some 0
    else (firstCrossIdx e rest).map (· + 1)

/-- Lines 933-949: the outer test reads the LAST row's cumulative cash
and compares STRICTLY against equity; only then is the first crossing
searched (enumerate starts the year count at 1).  The engine always
passes the 5-row projection, so the empty-list case is unreachable. -/
def paybackVerdict (rows : List YearRow) (e : ℚ) : PaybackVerdict :=
  match rows.getLast? with
  | none => .noInsight
  | some lastRow =>
    if e < lastRow.cumulative_cash then
      match firstCrossIdx e rows with
      | some j => .positiveYear (j + 1)
      | none => .noInsight
    else .longPayback

/-- The payback group as emitted insights; its strings contain no
division, so it never raises. -/
def paybackRule (r : Results) : Option (List Insight) :=
  match paybackVerdict r.yearly_data r.equity_amount with
  | .positiveYear _ => some [⟨.paybackGrp, .positive⟩]
  | .longPayback => some [⟨.paybackGrp, .warning⟩]
  | .noInsight => some []

/-- Lines 955-960: sale-price group; never raises. -/
def priceRule (i : Inputs) : Option (List Insight) :=
  if i.sale_price_per_kg < 30 then some [⟨.priceGrp, .warning⟩]
  else some []

/-- Lines 963-976: raw-material-share group.  The ratio itself (line
963) is computed with no guard before any branch, so the whole group
raises exactly when revenue is zero (raw_material_percent = none). -/
def rawMaterialRule (r : Results) : Option (List Insight) :=
  match raw_material_percent r with
  | none => none
  | some raw_material_pct =>
    if 70 < raw_material_pct then some [⟨.rawMaterial, .warning⟩]
    else if raw_material_pct < 50 then some [⟨.rawMaterial, .positive⟩]
    else some []

/-- Lines 979-981: revenue over headcount, 3 fixed staff plus the two
worker counts. -/
def revenue_per_employee (r : Results) (i : Inputs) : ℚ :=
  r.total_annual_revenue /
    (1 + 1 + i.num_skilled_workers + i.num_unskilled_workers + 1)

/-- Lines 978-988: revenue-per-employee group.  The division at lines
979-981 happens before the threshold test, so the group raises when the
headcount denominator is zero. -/
def manpowerRule (r : Results) (i : Inputs) : Option (List Insight) :=
  if 1 + 1 + i.num_skilled_workers + i.num_unskilled_workers + 1 = 0 then
    none
  else if revenue_per_employee r i < 1000000 then
    some [⟨.manpowerGrp, .recommendation⟩]
  else some []

/-- Lines 991-997: operating-days group; never raises. -/
def seasonalRule (i : Inputs) : Option (List Insight) :=
  if i.days_per_month < 24 then some [⟨.seasonal, .recommendation⟩]
  else some []

/-- Dispatch: one named rule group evaluated alone — its emissions, or
none when the group's Python raises ZeroDivisionError. -/
def ruleOf (g : RuleGroup) (r : Results) (i : Inputs) :
    Option (List Insight) :=
  match g with
  | .margin => marginRule r
  | .breakevenCap => breakevenRule r
  | .debtEquityGrp => debtEquityRule r
  | .cashFlowGrp => cashFlowRule r
  | .workingCap => workingCapitalRule r
  | .recoveryGrp => recoveryRule i
  | .hoursGrp => hoursRule i
  | .roi5 => roi5Rule r
  | .paybackGrp => paybackRule r
  | .priceGrp => priceRule i
  | .rawMaterial => rawMaterialRule r
  | .manpowerGrp => manpowerRule r i
  | .seasonal => seasonalRule i

/-- The diagnostic engine: the thirteen rule groups evaluated one after
another in source order.  A ZeroDivisionError in any group aborts the
whole call — the exception propagates and the caller receives nothing —
so the result is none as soon as one group raises, and otherwise the
concatenation of the groups' emissions. -/
def generateAiInsights (r : Results) (i : Inputs) : Option (List Insight) :=
  (marginRule r).bind fun a1 =>
  (breakevenRule r).bind fun a2 =>
  (debtEquityRule r).bind fun a3 =>
  (cashFlowRule r).bind fun a4 =>
  (workingCapitalRule r).bind fun a5 =>
  (recoveryRule i).bind fun a6 =>
  (hoursRule i).bind fun a7 =>
  (roi5Rule r).bind fun a8 =>
  (paybackRule r).bind fun a9 =>
  (priceRule i).bind fun a10 =>
  (rawMaterialRule r).bind fun a11 =>
  (manpowerRule r i).bind fun a12 =>
  (seasonalRule i).bind fun a13 =>
  some (a1 ++ a2 ++ a3 ++ a4 ++ a5 ++ a6 ++ a7 ++ a8 ++ a9 ++ a10 ++
    a11 ++ a12 ++ a13)

/-! Concrete configurations used to instantiate the theorems below. -/

/-- A baseline configuration with every monetary and rate field zero and
the default 10-year tenure. -/
def zeroInputs : Inputs :=
  { land_cost := 0
    building_cost := 0
    machinery_cost := 0
    electrical_cost := 0
    preoperative_cost := 0
    misc_fixed_assets := 0
    working_capital := 0
    loan_amount := 0
    loan_interest_rate := 0
    loan_tenure := 10
    hours_per_day := 0
    days_per_month := 0
    recovery_rate := 0
    sale_price_per_kg := 0
    bran_price_per_kg := 0
    husk_price_per_kg := 0
    broken_rice_price_per_kg := 0
    paddy_price_per_quintal := 0
    manager_salary := 0
    supervisor_salary := 0
    skilled_workers_salary := 0
    num_skilled_workers := 0
    unskilled_workers_salary := 0
    num_unskilled_workers := 0
    watchman_salary := 0
    power_cost_monthly := 0
    water_cost_monthly := 0
    fuel_cost_monthly := 0
    maintenance_percentage := 0
    insurance_percentage := 0
    admin_expenses_monthly := 0
    packing_cost_per_kg := 0
    transport_cost_per_kg := 0
    tax_rate := 0
    annual_growth_rate := 0 }

/-- A financed configuration: loan 100 at 12 percent over 1 year. -/
def cfgC2 : Inputs :=
  { zeroInputs with
    loan_amount := 100
    loan_interest_rate := 12
    loan_tenure := 1 }

/-- An unlevered but productive configuration. -/
def cfgC5 : Inputs :=
  { zeroInputs with
    working_capital := 1000
    hours_per_day := 8
    days_per_month := 26
    recovery_rate := 65
    sale_price_per_kg := 35
    tax_rate := 30 }

/-- A degenerate configuration with zero production, zero revenue and
zero equity. -/
def cfgC6 : Inputs := zeroInputs

/-- A configuration whose loan exceeds the total project cost (which is
zero here). -/
def cfgC7 : Inputs := { zeroInputs with loan_amount := 10 }

/-- A configuration tuned so the 5-year cumulative cash lands exactly on
the equity amount: project cost 5 funded entirely by equity, yearly cash
flow exactly 2, so cumulative cash runs -3, -1, 1, 3, 5 against equity 5. -/
def cfgC8 : Inputs :=
  { zeroInputs with
    working_capital := 5
    hours_per_day := 1
    days_per_month := 1
    recovery_rate := 100
    sale_price_per_kg := 1 / 30000 }

/-- A configuration with positive revenue and a deeply negative margin
(fixed admin cost dwarfs revenue). -/
def cfgC9 : Inputs :=
  { zeroInputs with
    hours_per_day := 1
    days_per_month := 1
    recovery_rate := 100
    sale_price_per_kg := 1
    admin_expenses_monthly := 10000 }

/-- Like cfgC9 but with positive working capital, so the project cost and
equity are positive and no rule group of the diagnostic engine hits a
zero denominator: the insight call completes. -/
def cfgC9b : Inputs :=
  { zeroInputs with
    working_capital := 100
    hours_per_day := 1
    days_per_month := 1
    recovery_rate := 100
    sale_price_per_kg := 1
    admin_expenses_monthly := 10000 }

/-- The first emitted row of the projection: the loop body applied to the
initial fold state (cumulative = minus project cost, balance = loan) at
year 1. -/
def firstYearRow (i : Inputs) : YearRow :=
  projStep (projCtx i) (-(total_project_cost i)) i.loan_amount 1

/-- A financed, capitalised configuration for the year-1 refinement. -/
def cfgC10 : Inputs :=
  { zeroInputs with
    working_capital := 200
    loan_amount := 100
    loan_interest_rate := 12
    loan_tenure := 1 }

/-! Helper lemmas about the projection fold. -/

/-- The row emitted by one loop iteration records the incoming cumulative
cash plus its own cash flow. -/
lemma projStep_cumulative (c : ProjCtx) (cum bal : ℚ) (y : ℕ) :
    (projStep c cum bal y).cumulative_cash =
      cum + (projStep c cum bal y).cash_flow := rfl

/-- The projection emits one row per year in the list. -/
lemma projectYears_length (c : ProjCtx) :
    ∀ (ys : List ℕ) (cum bal : ℚ),
      (projectYears c ys cum bal).length = ys.length := by
  intro ys
  induction ys with
  | nil => intro cum bal; rfl
  | cons y ys ih =>
    intro cum bal
    simp [projectYears, ih]

/-- The last cumulative-cash entry of the projection equals the initial
cumulative cash plus the sum of the emitted cash flows. -/
lemma projectYears_last_cumulative (c : ProjCtx) :
    ∀ (ys : List ℕ) (cum bal : ℚ), ys ≠ [] →
      ((projectYears c ys cum bal).map YearRow.cumulative_cash).getLast? =
        some (cum + ((projectYears c ys cum bal).map YearRow.cash_flow).sum) := by
  intro ys
  induction ys with
  | nil => intro cum bal h; exact absurd rfl h
  | cons y ys ih =>
    intro cum bal _
    rcases ys with _ | ⟨y2, ys⟩
    · simp [projectYears, projStep_cumulative]
    · have hne : (y2 :: ys : List ℕ) ≠ [] := by simp
      have hcons :
          projectYears c (y :: y2 :: ys) cum bal =
            projStep c cum bal y ::
              projectYears c (y2 :: ys)
                (projStep c cum bal y).cumulative_cash
                (projStep c cum bal y).loan_balance := rfl
      rw [hcons]
      have hrest :
          projectYears c (y2 :: ys)
              (projStep c cum bal y).cumulative_cash
              (projStep c cum bal y).loan_balance ≠ [] := by
        intro hnil
        have := projectYears_length c (y2 :: ys)
          (projStep c cum bal y).cumulative_cash
          (projStep c cum bal y).loan_balance
        rw [hnil] at this
        simp at this
      rcases hr : projectYears c (y2 :: ys)
          (projStep c cum bal y).cumulative_cash
          (projStep c cum bal y).loan_balance with _ | ⟨row2, rest⟩
      · exact absurd hr hrest
      · have := ih (projStep c cum bal y).cumulative_cash
          (projStep c cum bal y).loan_balance hne
        rw [hr] at this
        simp only [List.map_cons, List.sum_cons] at this
        simp only [List.map_cons, List.getLast?_cons_cons, List.sum_cons]
        rw [this, projStep_cumulative c cum bal y]
        congr 1
        ring

/-- One loop iteration never increases the loan balance and never drives
it negative, provided the balance is nonnegative and the annual loan
payment covers the interest on it. -/
lemma projStep_balance (c : ProjCtx) (cum bal : ℚ) (y : ℕ)
    (h0 : 0 ≤ bal) (hALP : bal * c.loan_interest_rate ≤ c.annual_loan_payment) :
    0 ≤ (projStep c cum bal y).loan_balance ∧
      (projStep c cum bal y).loan_balance ≤ bal := by
  simp only [projStep]
  split_ifs with h
  · constructor
    · have hmin : min (c.annual_loan_payment - bal * c.loan_interest_rate) bal
          ≤ bal := min_le_right _ _
      linarith
    · have hmin : 0 ≤
          min (c.annual_loan_payment - bal * c.loan_interest_rate) bal :=
        le_min (by linarith) h0
      linarith
  · constructor
    · linarith
    · linarith

/-- Along the whole projection the loan balance is a non-increasing chain
starting from the initial balance, and every balance stays between 0 and
the initial balance, provided the rate is nonnegative and the annual loan
payment covers the interest on the initial balance. -/
lemma projectYears_balance (c : ProjCtx) (hr : 0 ≤ c.loan_interest_rate) :
    ∀ (ys : List ℕ) (cum bal : ℚ), 0 ≤ bal →
      bal * c.loan_interest_rate ≤ c.annual_loan_payment →
      List.Chain (fun a b => b ≤ a) bal
          ((projectYears c ys cum bal).map YearRow.loan_balance) ∧
        ∀ row ∈ projectYears c ys cum bal,
          0 ≤ row.loan_balance ∧ row.loan_balance ≤ bal := by
  intro ys
  induction ys with
  | nil =>
    intro cum bal _ _
    exact ⟨List.Chain.nil, by simp [projectYears]⟩
  | cons y ys ih =>
    intro cum bal h0 hALP
    have hstep := projStep_balance c cum bal y h0 hALP
    have hALP2 : (projStep c cum bal y).loan_balance * c.loan_interest_rate ≤
        c.annual_loan_payment :=
      le_trans (mul_le_mul_of_nonneg_right hstep.2 hr) hALP
    have hrec := ih (projStep c cum bal y).cumulative_cash
      (projStep c cum bal y).loan_balance hstep.1 hALP2
    constructor
    · exact List.Chain.cons hstep.2 hrec.1
    · intro row hrow
      rcases List.mem_cons.mp hrow with hrow | hrow
      · rw [hrow]; exact ⟨hstep.1, hstep.2⟩
      · rcases hrec.2 row hrow with ⟨ha, hb⟩
        exact ⟨ha, le_trans hb hstep.2⟩

/-- With a zero loan balance every projected year reports zero interest,
keeps the balance at zero, and has cash flow equal to PAT plus
depreciation. -/
lemma projectYears_zero_balance (c : ProjCtx) :
    ∀ (ys : List ℕ) (cum : ℚ),
      ∀ row ∈ projectYears c ys cum 0,
        row.interest = 0 ∧ row.loan_balance = 0 ∧
          row.cash_flow = row.pat + row.depreciation := by
  intro ys
  induction ys with
  | nil => intro cum row hrow; simp [projectYears] at hrow
  | cons y ys ih =>
    intro cum row hrow
    rcases List.mem_cons.mp hrow with hrow | hrow
    · subst hrow
      refine ⟨?_, ?_, ?_⟩ <;> simp [projStep]
    · have hbal : (projStep c cum 0 y).loan_balance = 0 := by
        simp [projStep]
      rw [hbal] at hrow
      exact ih (projStep c cum 0 y).cumulative_cash row hrow

/-- For valid financing terms (nonnegative loan and rate, tenure at least
one year) the annual loan payment covers the first-year interest on the
full loan: the annuity factor q over q minus 1 is at least one. -/
lemma loan_rate_le_alp (i : Inputs) (h1 : 0 ≤ i.loan_amount)
    (h2 : 0 ≤ i.loan_interest_rate) (h3 : 1 ≤ i.loan_tenure) :
    i.loan_amount * interest_frac i ≤ annual_loan_payment i := by
  unfold annual_loan_payment emi
  split_ifs with h
  · obtain ⟨hl, hr⟩ := h
    set mr := interest_frac i / 12 with hmr
    have hmr0 : 0 < mr := by
      rw [hmr]; positivity
    set n := i.loan_tenure * 12 with hn
    have hn0 : n ≠ 0 := by
      rw [hn]
      exact Nat.mul_ne_zero (by omega) (by omega)
    set q := (1 + mr) ^ n with hq
    have hq1 : 1 < q := by
      rw [hq]
      exact one_lt_pow₀ (by linarith) hn0
    have hq0 : (0:ℚ) < q - 1 := by linarith
    have hqne : q - 1 ≠ 0 := ne_of_gt hq0
    have heq : i.loan_amount * mr * q / (q - 1) * 12 =
        i.loan_amount * interest_frac i * (q / (q - 1)) := by
      rw [hmr]
      field_simp
      ring
    rw [heq]
    have hone : 1 ≤ q / (q - 1) := by
      rw [le_div_iff₀ hq0]
      linarith
    have hnn : 0 ≤ i.loan_amount * interest_frac i := by
      have : 0 ≤ interest_frac i := le_of_lt hr
      exact mul_nonneg h1 this
    calc i.loan_amount * interest_frac i
        = i.loan_amount * interest_frac i * 1 := by ring
      _ ≤ i.loan_amount * interest_frac i * (q / (q - 1)) :=
          mul_le_mul_of_nonneg_left hone hnn
  · have hfr : 0 ≤ interest_frac i := by
      unfold interest_frac; positivity
    rcases not_and_or.mp h with h | h
    · have : i.loan_amount = 0 := le_antisymm (not_lt.mp h) h1
      rw [this]; simp
    · have : interest_frac i = 0 := le_antisymm (not_lt.mp h) hfr
      rw [this]; simp

/-! Helper lemmas about the payback search. -/

/-- Unfolding equation for the search on a nonempty list. -/
lemma firstCrossIdx_cons (e : ℚ) (row : YearRow) (rest : List YearRow) :
    firstCrossIdx e (row :: rest) =
      if e ≤ row.cumulative_cash then some 0
      else (firstCrossIdx e rest).map (· + 1) := rfl

/-- When the search returns index j, row j crosses the equity threshold
and every earlier row does not. -/
lemma firstCrossIdx_spec (e : ℚ) :
    ∀ (l : List YearRow) (j : ℕ), firstCrossIdx e l = some j →
      ∃ row, l.get? j = some row ∧ e ≤ row.cumulative_cash ∧
        ∀ k row', k < j → l.get? k = some row' →
          row'.cumulative_cash < e := by
  intro l
  induction l with
  | nil => intro j h; simp [firstCrossIdx] at h
  | cons row rest ih =>
    intro j h
    by_cases hc : e ≤ row.cumulative_cash
    · have hj : j = 0 := by
        simp [firstCrossIdx, hc] at h
        omega
      subst hj
      exact ⟨row, rfl, hc, fun k row' hk _ => absurd hk (Nat.not_lt_zero k)⟩
    · simp only [firstCrossIdx, if_neg hc] at h
      rcases hrec : firstCrossIdx e rest with _ | j'
      · rw [hrec] at h; simp at h
      · rw [hrec] at h
        have hj : j' + 1 = j := by simpa using h
        subst hj
        obtain ⟨row1, hget, hcross, hbefore⟩ := ih j' hrec
        refine ⟨row1, by simpa using hget, hcross, ?_⟩
        intro k row' hk hget'
        rcases k with _ | k
        · simp only [List.get?] at hget'
          cases hget'
          exact lt_of_not_le hc
        · have hk' : k < j' := by omega
          exact hbefore k row' hk' (by simpa using hget')

/-- If the last row crosses the equity threshold then the search finds
some index. -/
lemma firstCrossIdx_isSome_of_last (e : ℚ) :
    ∀ (l : List YearRow) (lastRow : YearRow), l.getLast? = some lastRow →
      e ≤ lastRow.cumulative_cash → ∃ j, firstCrossIdx e l = some j := by
  intro l
  induction l with
  | nil => intro lastRow h; simp at h
  | cons row rest ih =>
    intro lastRow hlast hcross
    by_cases hc : e ≤ row.cumulative_cash
    · exact ⟨0, by simp [firstCrossIdx, hc]⟩
    · rcases rest with _ | ⟨row2, rest'⟩
      · have : lastRow = row := by
          rw [List.getLast?_singleton] at hlast
          exact (Option.some.inj hlast).symm
        rw [this] at hcross
        exact absurd hcross hc
      · rw [List.getLast?_cons_cons] at hlast
        obtain ⟨j, hj⟩ := ih lastRow hlast hcross
        refine ⟨j + 1, ?_⟩
        rw [firstCrossIdx_cons, if_neg hc, hj]
        rfl

/-- The last entry of a mapped list is the image of the last entry. -/
lemma getLast?_map_of_getLast? {α β : Type} (f : α → β) (l : List α)
    (a : α) (h : l.getLast? = some a) : (l.map f).getLast? = some (f a) := by
  induction l with
  | nil => simp at h
  | cons x xs ih =>
    rcases xs with _ | ⟨x2, xs'⟩
    · have hx : x = a := by
        rw [List.getLast?_singleton] at h
        exact Option.some.inj h
      subst hx
      simp [List.getLast?_singleton]
    · rw [List.getLast?_cons_cons] at h
      have := ih h
      simp only [List.map_cons] at this ⊢
      rw [List.getLast?_cons_cons]
      exact this

/-! Tagging lemmas: every insight a rule group emits carries that
group's tag, so the groups are separable in the combined output. -/

lemma marginRule_group (r : Results) (l : List Insight)
    (h : marginRule r = some l) : ∀ x ∈ l, x.group = .margin := by
  unfold marginRule at h
  repeat' split at h
  all_goals first
    | exact Option.noConfusion h
    | (injection h with h2; subst h2; simp)

lemma breakevenRule_group (r : Results) (l : List Insight)
    (h : breakevenRule r = some l) : ∀ x ∈ l, x.group = .breakevenCap := by
  unfold breakevenRule at h
  repeat' split at h
  all_goals first
    | exact Option.noConfusion h
    | (injection h with h2; subst h2; simp)

lemma debtEquityRule_group (r : Results) (l : List Insight)
    (h : debtEquityRule r = some l) :
    ∀ x ∈ l, x.group = .debtEquityGrp := by
  unfold debtEquityRule at h
  repeat' split at h
  all_goals first
    | exact Option.noConfusion h
    | (injection h with h2; subst h2; simp)

lemma cashFlowRule_group (r : Results) (l : List Insight)
    (h : cashFlowRule r = some l) : ∀ x ∈ l, x.group = .cashFlowGrp := by
  unfold cashFlowRule at h
  repeat' split at h
  all_goals first
    | exact Option.noConfusion h
    | (injection h with h2; subst h2; simp)

lemma workingCapitalRule_group (r : Results) (l : List Insight)
    (h : workingCapitalRule r = some l) :
    ∀ x ∈ l, x.group = .workingCap := by
  unfold workingCapitalRule at h
  repeat' split at h
  all_goals first
    | exact Option.noConfusion h
    | (injection h with h2; subst h2; simp)

lemma recoveryRule_group (i : Inputs) (l : List Insight)
    (h : recoveryRule i = some l) : ∀ x ∈ l, x.group = .recoveryGrp := by
  unfold recoveryRule at h
  repeat' split at h
  all_goals first
    | exact Option.noConfusion h
    | (injection h with h2; subst h2; simp)

lemma hoursRule_group (i : Inputs) (l : List Insight)
    (h : hoursRule i = some l) : ∀ x ∈ l, x.group = .hoursGrp := by
  unfold hoursRule at h
  repeat' split at h
  all_goals first
    | exact Option.noConfusion h
    | (injection h with h2; subst h2; simp)

lemma roi5Rule_group (r : Results) (l : List Insight)
    (h : roi5Rule r = some l) : ∀ x ∈ l, x.group = .roi5 := by
  unfold roi5Rule at h
  repeat' split at h
  all_goals first
    | exact Option.noConfusion h
    | (injection h with h2; subst h2; simp)

lemma paybackRule_group (r : Results) (l : List Insight)
    (h : paybackRule r = some l) : ∀ x ∈ l, x.group = .paybackGrp := by
  unfold paybackRule at h
  repeat' split at h
  all_goals first
    | exact Option.noConfusion h
    | (injection h with h2; subst h2; simp)

lemma priceRule_group (i : Inputs) (l : List Insight)
    (h : priceRule i = some l) : ∀ x ∈ l, x.group = .priceGrp := by
  unfold priceRule at h
  repeat' split at h
  all_goals first
    | exact Option.noConfusion h
    | (injection h with h2; subst h2; simp)

lemma rawMaterialRule_group (r : Results) (l : List Insight)
    (h : rawMaterialRule r = some l) : ∀ x ∈ l, x.group = .rawMaterial := by
  unfold rawMaterialRule at h
  repeat' split at h
  all_goals first
    | exact Option.noConfusion h
    | (injection h with h2; subst h2; simp)

lemma manpowerRule_group (r : Results) (i : Inputs) (l : List Insight)
    (h : manpowerRule r i = some l) : ∀ x ∈ l, x.group = .manpowerGrp := by
  unfold manpowerRule at h
  repeat' split at h
  all_goals first
    | exact Option.noConfusion h
    | (injection h with h2; subst h2; simp)

lemma seasonalRule_group (i : Inputs) (l : List Insight)
    (h : seasonalRule i = some l) : ∀ x ∈ l, x.group = .seasonal := by
  unfold seasonalRule at h
  repeat' split at h
  all_goals first
    | exact Option.noConfusion h
    | (injection h with h2; subst h2; simp)

/-- Filtering a uniformly tagged emission list by a group tag keeps all
of it or none of it. -/
lemma filter_of_uniform {g' : RuleGroup} (g : RuleGroup) (l : List Insight)
    (hl : ∀ x ∈ l, x.group = g') :
    l.filter (fun x => decide (x.group = g)) = if g' = g then l else [] := by
  split_ifs with h
  · subst h
    apply List.filter_eq_self.mpr
    intro x hx
    simpa using hl x hx
  · apply List.filter_eq_nil_iff.mpr
    intro x hx
    rw [hl x hx]
    simpa using h

/-- Destructuring of a successful Option bind: the first computation
succeeded and the continuation succeeded on its value. -/
lemma bind_some_destruct {α β : Type} {o : Option α} {f : α → Option β}
    {b : β} (h : o.bind f = some b) : ∃ a, o = some a ∧ f a = some b := by
  cases o with
  | none => simp at h
  | some a => exact ⟨a, rfl, h⟩

/-- When the insight call completes (no group raised ZeroDivisionError),
filtering its output down to one rule group recovers exactly that
group's own successful evaluation: the groups are independent. -/
lemma filter_group_generate (r : Results) (i : Inputs) (l : List Insight)
    (hcall : generateAiInsights r i = some l) (g : RuleGroup) :
    ∃ lg, ruleOf g r i = some lg ∧
      l.filter (fun x => decide (x.group = g)) = lg := by
  unfold generateAiInsights at hcall
  obtain ⟨a1, h1, hcall⟩ := bind_some_destruct hcall
  obtain ⟨a2, h2, hcall⟩ := bind_some_destruct hcall
  obtain ⟨a3, h3, hcall⟩ := bind_some_destruct hcall
  obtain ⟨a4, h4, hcall⟩ := bind_some_destruct hcall
  obtain ⟨a5, h5, hcall⟩ := bind_some_destruct hcall
  obtain ⟨a6, h6, hcall⟩ := bind_some_destruct hcall
  obtain ⟨a7, h7, hcall⟩ := bind_some_destruct hcall
  obtain ⟨a8, h8, hcall⟩ := bind_some_destruct hcall
  obtain ⟨a9, h9, hcall⟩ := bind_some_destruct hcall
  obtain ⟨a10, h10, hcall⟩ := bind_some_destruct hcall
  obtain ⟨a11, h11, hcall⟩ := bind_some_destruct hcall
  obtain ⟨a12, h12, hcall⟩ := bind_some_destruct hcall
  obtain ⟨a13, h13, hcall⟩ := bind_some_destruct hcall
  have hl := Option.some.inj hcall
  subst hl
  have t1 := marginRule_group r a1 h1
  have t2 := breakevenRule_group r a2 h2
  have t3 := debtEquityRule_group r a3 h3
  have t4 := cashFlowRule_group r a4 h4
  have t5 := workingCapitalRule_group r a5 h5
  have t6 := recoveryRule_group i a6 h6
  have t7 := hoursRule_group i a7 h7
  have t8 := roi5Rule_group r a8 h8
  have t9 := paybackRule_group r a9 h9
  have t10 := priceRule_group i a10 h10
  have t11 := rawMaterialRule_group r a11 h11
  have t12 := manpowerRule_group r i a12 h12
  have t13 := seasonalRule_group i a13 h13
  have hfil :
      (a1 ++ a2 ++ a3 ++ a4 ++ a5 ++ a6 ++ a7 ++ a8 ++ a9 ++ a10 ++ a11 ++
        a12 ++ a13).filter (fun x => decide (x.group = g)) =
      (if RuleGroup.margin = g then a1 else []) ++
        (if RuleGroup.breakevenCap = g then a2 else []) ++
        (if RuleGroup.debtEquityGrp = g then a3 else []) ++
        (if RuleGroup.cashFlowGrp = g then a4 else []) ++
        (if RuleGroup.workingCap = g then a5 else []) ++
        (if RuleGroup.recoveryGrp = g then a6 else []) ++
        (if RuleGroup.hoursGrp = g then a7 else []) ++
        (if RuleGroup.roi5 = g then a8 else []) ++
        (if RuleGroup.paybackGrp = g then a9 else []) ++
        (if RuleGroup.priceGrp = g then a10 else []) ++
        (if RuleGroup.rawMaterial = g then a11 else []) ++
        (if RuleGroup.manpowerGrp = g then a12 else []) ++
        (if RuleGroup.seasonal = g then a13 else []) := by
    simp only [List.filter_append]
    rw [filter_of_uniform g a1 t1, filter_of_uniform g a2 t2,
      filter_of_uniform g a3 t3, filter_of_uniform g a4 t4,
      filter_of_uniform g a5 t5, filter_of_uniform g a6 t6,
      filter_of_uniform g a7 t7, filter_of_uniform g a8 t8,
      filter_of_uniform g a9 t9, filter_of_uniform g a10 t10,
      filter_of_uniform g a11 t11, filter_of_uniform g a12 t12,
      filter_of_uniform g a13 t13]
  cases g with
  | margin => exact ⟨a1, h1, by rw [hfil]; simp⟩
  | breakevenCap => exact ⟨a2, h2, by rw [hfil]; simp⟩
  | debtEquityGrp => exact ⟨a3, h3, by rw [hfil]; simp⟩
  | cashFlowGrp => exact ⟨a4, h4, by rw [hfil]; simp⟩
  | workingCap => exact ⟨a5, h5, by rw [hfil]; simp⟩
  | recoveryGrp => exact ⟨a6, h6, by rw [hfil]; simp⟩
  | hoursGrp => exact ⟨a7, h7, by rw [hfil]; simp⟩
  | roi5 => exact ⟨a8, h8, by rw [hfil]; simp⟩
  | paybackGrp => exact ⟨a9, h9, by rw [hfil]; simp⟩
  | priceGrp => exact ⟨a10, h10, by rw [hfil]; simp⟩
  | rawMaterial => exact ⟨a11, h11, by rw [hfil]; simp⟩
  | manpowerGrp => exact ⟨a12, h12, by rw [hfil]; simp⟩
  | seasonal => exact ⟨a13, h13, by rw [hfil]; simp⟩

/-! The claims. -/

/-- C1: for every input configuration, the cumulative-cash field of the
last yearly projection record equals minus the total project cost plus
the sum of the Cash Flow fields of the yearly records: the fold starts
at minus total_project_cost and adds exactly each year's cash flow once. -/
theorem C1_cumulative_cash_fold (i : Inputs) :
    ((calculateComprehensiveFinancials i).yearly_data.map
        YearRow.cumulative_cash).getLast? =
      some (-(calculateComprehensiveFinancials i).total_project_cost +
        ((calculateComprehensiveFinancials i).yearly_data.map
          YearRow.cash_flow).sum) := by
  show ((yearly_data i).map YearRow.cumulative_cash).getLast? =
    some (-(total_project_cost i) + ((yearly_data i).map YearRow.cash_flow).sum)
  unfold yearly_data
  exact projectYears_last_cumulative (projCtx i) [1, 2, 3, 4, 5]
    (-(total_project_cost i)) i.loan_amount (by simp)

/-- C2: for every valid configuration (nonnegative loan and rate, tenure
at least one year) the Loan Balance column is non-increasing starting
from loan_amount, and no entry is negative. -/
theorem C2_loan_balance_monotone (i : Inputs) (h1 : 0 ≤ i.loan_amount)
    (h2 : 0 ≤ i.loan_interest_rate) (h3 : 1 ≤ i.loan_tenure) :
    List.Chain (fun a b => b ≤ a) i.loan_amount
        ((calculateComprehensiveFinancials i).yearly_data.map
          YearRow.loan_balance) ∧
      ∀ row ∈ (calculateComprehensiveFinancials i).yearly_data,
        0 ≤ row.loan_balance := by
  have hr : 0 ≤ (projCtx i).loan_interest_rate := by
    show 0 ≤ interest_frac i
    unfold interest_frac
    positivity
  have hALP : i.loan_amount * (projCtx i).loan_interest_rate ≤
      (projCtx i).annual_loan_payment := loan_rate_le_alp i h1 h2 h3
  have hmain := projectYears_balance (projCtx i) hr [1, 2, 3, 4, 5]
    (-(total_project_cost i)) i.loan_amount h1 hALP
  exact ⟨hmain.1, fun row hrow => (hmain.2 row hrow).1⟩

/-- C2 witness: the valid financed configuration cfgC2 satisfies the
hypotheses and its balance column is a non-increasing chain from 100. -/
theorem C2_loan_balance_monotone_witness :
    0 ≤ cfgC2.loan_amount ∧ 0 ≤ cfgC2.loan_interest_rate ∧
      1 ≤ cfgC2.loan_tenure ∧
      List.Chain (fun a b => b ≤ a) cfgC2.loan_amount
        ((calculateComprehensiveFinancials cfgC2).yearly_data.map
          YearRow.loan_balance) :=
  ⟨by decide, by decide, by decide,
    (C2_loan_balance_monotone cfgC2 (by decide) (by decide) (by decide)).1⟩

/-- C3: the returned break-even quantity is annual fixed costs over the
contribution per unit when the contribution (revenue per kg minus
variable cost per kg, both as returned) is positive, and the explicit 0
sentinel otherwise; no exception, no infinity. -/
theorem C3_breakeven_sentinel (i : Inputs) :
    (calculateComprehensiveFinancials i).contribution_per_unit =
        (calculateComprehensiveFinancials i).revenue_per_kg_rice -
          (calculateComprehensiveFinancials i).variable_cost_per_unit ∧
      (calculateComprehensiveFinancials i).breakeven_kg =
        (if 0 < (calculateComprehensiveFinancials i).contribution_per_unit
        then annual_fixed_costs_of (calculateComprehensiveFinancials i) /
          (calculateComprehensiveFinancials i).contribution_per_unit
        else 0) :=
  ⟨rfl, rfl⟩

/-- C4: for every input configuration, the projection has exactly 5
yearly records, whatever the configured loan tenure is. -/
theorem C4_five_year_records (i : Inputs) :
    (calculateComprehensiveFinancials i).yearly_data.length = 5 := by
  show (yearly_data i).length = 5
  unfold yearly_data
  rw [projectYears_length]
  rfl

/-- C5: with a zero loan the engine returns EMI 0 and annual loan payment
0, the single-year interest is 0, the single-year cash flow is PAT plus
depreciation, and every projected year has zero interest and cash flow
equal to PAT plus depreciation. -/
theorem C5_zero_loan (i : Inputs) (h : i.loan_amount = 0) :
    (calculateComprehensiveFinancials i).emi = 0 ∧
      (calculateComprehensiveFinancials i).annual_loan_payment = 0 ∧
      (calculateComprehensiveFinancials i).annual_interest = 0 ∧
      (calculateComprehensiveFinancials i).annual_cash_flow =
        (calculateComprehensiveFinancials i).pat +
          (calculateComprehensiveFinancials i).annual_depreciation ∧
      ∀ row ∈ (calculateComprehensiveFinancials i).yearly_data,
        row.interest = 0 ∧ row.cash_flow = row.pat + row.depreciation := by
  have hemi : emi i = 0 := by
    unfold emi
    rw [if_neg]
    rintro ⟨hl, _⟩
    rw [h] at hl
    exact lt_irrefl 0 hl
  have halp : annual_loan_payment i = 0 := by
    unfold annual_loan_payment
    rw [if_neg]
    rintro ⟨hl, _⟩
    rw [h] at hl
    exact lt_irrefl 0 hl
  have hint : annual_interest i = 0 := by
    unfold annual_interest
    rw [h]
    ring
  have hpr : principal_repayment i = 0 := by
    unfold principal_repayment
    rw [if_neg]
    rw [halp]
    exact lt_irrefl 0
  have hacf : annual_cash_flow i = pat i + annual_depreciation i := by
    unfold annual_cash_flow
    rw [hpr]
    ring
  refine ⟨hemi, halp, hint, hacf, ?_⟩
  intro row hrow
  have hrow0 : row ∈ projectYears (projCtx i) [1, 2, 3, 4, 5]
      (-(total_project_cost i)) 0 := by
    have : (calculateComprehensiveFinancials i).yearly_data =
        projectYears (projCtx i) [1, 2, 3, 4, 5]
          (-(total_project_cost i)) 0 := by
      show yearly_data i = _
      unfold yearly_data
      rw [h]
    rwa [this] at hrow
  have hz := projectYears_zero_balance (projCtx i) [1, 2, 3, 4, 5]
    (-(total_project_cost i)) row hrow0
  exact ⟨hz.1, hz.2.2⟩

/-- C5 witness: the unlevered configuration cfgC5 has loan 0, and the
engine reports EMI 0, annual loan payment 0, zero interest, and cash
flow equal to PAT plus depreciation. -/
theorem C5_zero_loan_witness :
    cfgC5.loan_amount = 0 ∧
      (calculateComprehensiveFinancials cfgC5).emi = 0 ∧
      (calculateComprehensiveFinancials cfgC5).annual_loan_payment = 0 ∧
      (calculateComprehensiveFinancials cfgC5).annual_interest = 0 ∧
      (calculateComprehensiveFinancials cfgC5).annual_cash_flow =
        (calculateComprehensiveFinancials cfgC5).pat +
          (calculateComprehensiveFinancials cfgC5).annual_depreciation :=
  ⟨rfl, (C5_zero_loan cfgC5 rfl).1, (C5_zero_loan cfgC5 rfl).2.1,
    (C5_zero_loan cfgC5 rfl).2.2.1, (C5_zero_loan cfgC5 rfl).2.2.2.1⟩

/-- C6 counterexample: at the all-zero configuration the denominators are
zero (equity not positive, revenue zero), yet the insight engine's
debt-equity metric is the infinite value, not 0, and its raw-material
ratio raises (none) instead of returning 0 — refuting the claim that
every affected derived metric comes back as 0 with no exception and no
infinity. -/
theorem C6_counterexample :
    (calculateComprehensiveFinancials cfgC6).equity_amount ≤ 0 ∧
      (calculateComprehensiveFinancials cfgC6).total_annual_revenue = 0 ∧
      debt_equity (calculateComprehensiveFinancials cfgC6) = .inf ∧
      debt_equity (calculateComprehensiveFinancials cfgC6) ≠ .fin 0 ∧
      raw_material_percent (calculateComprehensiveFinancials cfgC6) =
        none := by
  have hde : debt_equity (calculateComprehensiveFinancials cfgC6) = .inf := by
    norm_num [calculateComprehensiveFinancials, debt_equity, equity_amount,
      total_project_cost, total_fixed_capital, cfgC6, zeroInputs]
  refine ⟨?_, ?_, hde, ?_, ?_⟩
  · norm_num [calculateComprehensiveFinancials, equity_amount,
      total_project_cost, total_fixed_capital, cfgC6, zeroInputs]
  · norm_num [calculateComprehensiveFinancials, total_annual_revenue,
      annual_revenue_rice, annual_revenue_bran, annual_revenue_husk,
      annual_revenue_broken, rice_kg_year, rice_tonnes_year,
      paddy_tonnes_year, paddy_tonnes_day, working_days_per_year,
      bran_tonnes_year, husk_tonnes_year, broken_rice_tonnes_year,
      cfgC6, zeroInputs]
  · rw [hde]
    exact fun hc => PyFloat.noConfusion hc
  · norm_num [calculateComprehensiveFinancials, raw_material_percent,
      total_annual_revenue, annual_revenue_rice, annual_revenue_bran,
      annual_revenue_husk, annual_revenue_broken, rice_kg_year,
      rice_tonnes_year, paddy_tonnes_year, paddy_tonnes_day,
      working_days_per_year, bran_tonnes_year, husk_tonnes_year,
      broken_rice_tonnes_year, cfgC6, zeroInputs]

/-- C6 amended: inside calculate_comprehensive_financials the guarded
ratios do return 0 on zero denominators (variable cost, revenue per kg
and break-even on zero production; the three margins on zero revenue),
but in generate_ai_insights a non-positive equity produces the infinite
debt-equity value and a zero revenue makes the unguarded raw-material
division raise. -/
theorem C6_zero_denominator_behaviour (i : Inputs)
    (h1 : rice_kg_year i = 0) (h2 : total_annual_revenue i = 0)
    (h3 : equity_amount i ≤ 0) :
    variable_cost_per_unit i = 0 ∧ revenue_per_kg_rice i = 0 ∧
      breakeven_kg i = 0 ∧ gross_margin i = 0 ∧ ebitda_margin i = 0 ∧
      net_margin i = 0 ∧
      debt_equity (calculateComprehensiveFinancials i) = .inf ∧
      raw_material_percent (calculateComprehensiveFinancials i) = none := by
  have hvc : variable_cost_per_unit i = 0 := by
    unfold variable_cost_per_unit
    rw [h1]
    simp
  have hrpk : revenue_per_kg_rice i = 0 := by
    unfold revenue_per_kg_rice
    rw [h1]
    simp
  have hbe : breakeven_kg i = 0 := by
    unfold breakeven_kg contribution_per_unit
    rw [hvc, hrpk]
    simp
  have hgm : gross_margin i = 0 := by
    unfold gross_margin
    rw [h2]
    simp
  have hem : ebitda_margin i = 0 := by
    unfold ebitda_margin
    rw [h2]
    simp
  have hnm : net_margin i = 0 := by
    unfold net_margin
    rw [h2]
    simp
  have hde : debt_equity (calculateComprehensiveFinancials i) = .inf := by
    unfold debt_equity
    exact if_neg (not_lt.mpr h3)
  have hrm : raw_material_percent (calculateComprehensiveFinancials i) =
      none := by
    unfold raw_material_percent
    exact if_pos h2
  exact ⟨hvc, hrpk, hbe, hgm, hem, hnm, hde, hrm⟩

/-- C6 witness: the all-zero configuration satisfies all three
zero-denominator hypotheses, and the amended behaviour follows. -/
theorem C6_zero_denominator_behaviour_witness :
    rice_kg_year cfgC6 = 0 ∧ total_annual_revenue cfgC6 = 0 ∧
      equity_amount cfgC6 ≤ 0 ∧
      (variable_cost_per_unit cfgC6 = 0 ∧ revenue_per_kg_rice cfgC6 = 0 ∧
        breakeven_kg cfgC6 = 0 ∧ gross_margin cfgC6 = 0 ∧
        ebitda_margin cfgC6 = 0 ∧ net_margin cfgC6 = 0 ∧
        debt_equity (calculateComprehensiveFinancials cfgC6) = .inf ∧
        raw_material_percent (calculateComprehensiveFinancials cfgC6) =
          none) := by
  have h1 : rice_kg_year cfgC6 = 0 := by
    norm_num [rice_kg_year, rice_tonnes_year, paddy_tonnes_year,
      paddy_tonnes_day, working_days_per_year, cfgC6, zeroInputs]
  have h2 : total_annual_revenue cfgC6 = 0 := by
    norm_num [total_annual_revenue, annual_revenue_rice, annual_revenue_bran,
      annual_revenue_husk, annual_revenue_broken, rice_kg_year,
      rice_tonnes_year, paddy_tonnes_year, paddy_tonnes_day,
      working_days_per_year, bran_tonnes_year, husk_tonnes_year,
      broken_rice_tonnes_year, cfgC6, zeroInputs]
  have h3 : equity_amount cfgC6 ≤ 0 := by
    norm_num [equity_amount, total_project_cost, total_fixed_capital,
      cfgC6, zeroInputs]
  exact ⟨h1, h2, h3, C6_zero_denominator_behaviour cfgC6 h1 h2 h3⟩

/-- C7 counterexample: with a loan of 10 against a total project cost of
0 the engine neither rejects the configuration nor clamps equity to zero:
it returns the record with equity_amount equal to -10. -/
theorem C7_counterexample :
    total_project_cost cfgC7 < cfgC7.loan_amount ∧
      (calculateComprehensiveFinancials cfgC7).equity_amount = -10 := by
  constructor
  · norm_num [total_project_cost, total_fixed_capital, cfgC7, zeroInputs]
  · show equity_amount cfgC7 = -10
    norm_num [equity_amount, total_project_cost, total_fixed_capital,
      cfgC7, zeroInputs]

/-- C7 amended: the engine performs no validation at all: it always
returns equity_amount = total_project_cost - loan_amount unchanged, which
is negative exactly when the loan exceeds the project cost, and the
downstream diagnostic engine then maps the non-positive equity to the
infinite debt-equity value rather than an error. -/
theorem C7_negative_equity_propagates (i : Inputs)
    (h : total_project_cost i < i.loan_amount) :
    (calculateComprehensiveFinancials i).equity_amount =
        total_project_cost i - i.loan_amount ∧
      (calculateComprehensiveFinancials i).equity_amount < 0 ∧
      debt_equity (calculateComprehensiveFinancials i) = .inf := by
  have hneg : equity_amount i < 0 := by
    unfold equity_amount
    linarith
  refine ⟨rfl, hneg, ?_⟩
  unfold debt_equity
  exact if_neg (not_lt.mpr (le_of_lt hneg))

/-- C7 witness: the over-financed configuration cfgC7 satisfies the
hypothesis and exhibits the propagated negative equity. -/
theorem C7_negative_equity_propagates_witness :
    total_project_cost cfgC7 < cfgC7.loan_amount ∧
      ((calculateComprehensiveFinancials cfgC7).equity_amount =
          total_project_cost cfgC7 - cfgC7.loan_amount ∧
        (calculateComprehensiveFinancials cfgC7).equity_amount < 0 ∧
        debt_equity (calculateComprehensiveFinancials cfgC7) = .inf) := by
  have h : total_project_cost cfgC7 < cfgC7.loan_amount := by
    norm_num [total_project_cost, total_fixed_capital, cfgC7, zeroInputs]
  exact ⟨h, C7_negative_equity_propagates cfgC7 h⟩

/-- The projection always has 5 rows (helper shared by several claims). -/
lemma yearly_data_length (i : Inputs) : (yearly_data i).length = 5 := by
  unfold yearly_data
  rw [projectYears_length]
  rfl

/-- What the payback search actually does on a nonempty projection: when
the final cumulative cash strictly exceeds the equity threshold it names
the earliest crossing year; otherwise (final cumulative at or below
equity, even if an earlier year crossed) it emits the long-payback
warning. -/
lemma paybackVerdict_characterization (rows : List YearRow) (e : ℚ)
    (hne : rows ≠ []) :
    ((rows.map YearRow.cumulative_cash).getLast?.getD 0 ≤ e →
      paybackVerdict rows e = .longPayback) ∧
    (e < (rows.map YearRow.cumulative_cash).getLast?.getD 0 →
      ∃ j row, firstCrossIdx e rows = some j ∧
        paybackVerdict rows e = .positiveYear (j + 1) ∧
        rows.get? j = some row ∧ e ≤ row.cumulative_cash ∧
        ∀ k row', k < j → rows.get? k = some row' →
          row'.cumulative_cash < e) := by
  obtain ⟨lastRow, hlast⟩ :=
    Option.isSome_iff_exists.mp (List.getLast?_isSome.mpr hne)
  have hmap : (rows.map YearRow.cumulative_cash).getLast? =
      some lastRow.cumulative_cash :=
    getLast?_map_of_getLast? YearRow.cumulative_cash rows lastRow hlast
  rw [hmap]
  simp only [Option.getD_some]
  constructor
  · intro h
    unfold paybackVerdict
    rw [hlast]
    simp only [if_neg (not_lt.mpr h)]
  · intro h
    obtain ⟨j, hj⟩ := firstCrossIdx_isSome_of_last e rows lastRow hlast h.le
    obtain ⟨row, hget, hcross, hbefore⟩ := firstCrossIdx_spec e rows j hj
    refine ⟨j, row, hj, ?_, hget, hcross, hbefore⟩
    unfold paybackVerdict
    rw [hlast]
    simp only [if_pos h, hj]

/-- C8 counterexample: at cfgC8 the fifth year's cumulative cash equals
the equity amount exactly, so year 5 satisfies the crossing condition,
yet the engine emits the long-payback warning (the outer test compares
the final cumulative cash STRICTLY against equity) — refuting the claim
that the warning appears only when no year crosses. -/
theorem C8_counterexample :
    paybackVerdict (calculateComprehensiveFinancials cfgC8).yearly_data
        (calculateComprehensiveFinancials cfgC8).equity_amount =
      .longPayback ∧
    ((calculateComprehensiveFinancials cfgC8).yearly_data.map
        YearRow.cumulative_cash).getLast? =
      some (calculateComprehensiveFinancials cfgC8).equity_amount := by
  norm_num [paybackVerdict, firstCrossIdx, calculateComprehensiveFinancials,
    yearly_data, projectYears, projStep, projCtx, annual_growth, tax_frac,
    interest_frac, annual_loan_payment, emi, total_annual_revenue,
    annual_revenue_rice, annual_revenue_bran, annual_revenue_husk,
    annual_revenue_broken, rice_kg_year, rice_tonnes_year, paddy_tonnes_year,
    paddy_tonnes_day, working_days_per_year, bran_tonnes_year,
    husk_tonnes_year, broken_rice_tonnes_year, total_operating_costs,
    annual_paddy_cost, total_manpower_cost, annual_utilities,
    annual_maintenance, annual_insurance, admin_expenses,
    annual_packing_cost, annual_transport_cost, annual_depreciation,
    equity_amount, total_project_cost, total_fixed_capital,
    cfgC8, zeroInputs, min_def, max_def, List.getLast?]

/-- C8 amended: the payback rule emits the positive insight naming the
earliest year whose cumulative cash reaches the equity amount exactly
when the FINAL year's cumulative cash strictly exceeds equity; in every
other case (including a final cumulative equal to equity, or an early
crossing followed by decline) it emits the long-payback warning; one of
the two is always emitted. -/
theorem C8_payback_first_crossing (i : Inputs) :
    (((calculateComprehensiveFinancials i).yearly_data.map
          YearRow.cumulative_cash).getLast?.getD 0 ≤
        (calculateComprehensiveFinancials i).equity_amount →
      paybackVerdict (calculateComprehensiveFinancials i).yearly_data
        (calculateComprehensiveFinancials i).equity_amount =
        .longPayback) ∧
    ((calculateComprehensiveFinancials i).equity_amount <
        ((calculateComprehensiveFinancials i).yearly_data.map
          YearRow.cumulative_cash).getLast?.getD 0 →
      ∃ j row,
        firstCrossIdx (calculateComprehensiveFinancials i).equity_amount
          (calculateComprehensiveFinancials i).yearly_data = some j ∧
        paybackVerdict (calculateComprehensiveFinancials i).yearly_data
          (calculateComprehensiveFinancials i).equity_amount =
          .positiveYear (j + 1) ∧
        (calculateComprehensiveFinancials i).yearly_data.get? j =
          some row ∧
        (calculateComprehensiveFinancials i).equity_amount ≤
          row.cumulative_cash ∧
        ∀ k row', k < j →
          (calculateComprehensiveFinancials i).yearly_data.get? k =
            some row' →
          row'.cumulative_cash <
            (calculateComprehensiveFinancials i).equity_amount) := by
  have hne : (calculateComprehensiveFinancials i).yearly_data ≠ [] := by
    have hlen : (yearly_data i).length = 5 := yearly_data_length i
    intro hnil
    rw [show (calculateComprehensiveFinancials i).yearly_data =
      yearly_data i from rfl] at hnil
    rw [hnil] at hlen
    simp at hlen
  exact paybackVerdict_characterization
    (calculateComprehensiveFinancials i).yearly_data
    (calculateComprehensiveFinancials i).equity_amount hne

/-- C9 counterexample: cfgC9 has positive revenue (60000) and a net
margin of -100 percent, inside the claim's scope, yet the real engine
call raises ZeroDivisionError and emits nothing at all: the margin and
break-even groups succeed, but the debt-equity group's warning branch
divides by the zero total_project_cost (line 489, with equity 0 routed
through inf) — refuting the claim that the call emits exactly one
critical margin insight plus the other groups' insights. -/
theorem C9_counterexample :
    0 < (calculateComprehensiveFinancials cfgC9).total_annual_revenue ∧
      (calculateComprehensiveFinancials cfgC9).pat /
          (calculateComprehensiveFinancials cfgC9).total_annual_revenue *
          100 < 5 ∧
      generateAiInsights (calculateComprehensiveFinancials cfgC9) cfgC9 =
        none := by
  refine ⟨?_, ?_, ?_⟩
  · norm_num [calculateComprehensiveFinancials, total_annual_revenue,
      annual_revenue_rice, annual_revenue_bran, annual_revenue_husk,
      annual_revenue_broken, rice_kg_year, rice_tonnes_year,
      paddy_tonnes_year, paddy_tonnes_day, working_days_per_year,
      bran_tonnes_year, husk_tonnes_year, broken_rice_tonnes_year,
      cfgC9, zeroInputs]
  · norm_num [calculateComprehensiveFinancials, pat, pbt, ebit, ebitda,
      tax_amount, tax_frac, gross_profit, total_annual_revenue,
      annual_revenue_rice, annual_revenue_bran, annual_revenue_husk,
      annual_revenue_broken, rice_kg_year, rice_tonnes_year,
      paddy_tonnes_year, paddy_tonnes_day, working_days_per_year,
      bran_tonnes_year, husk_tonnes_year, broken_rice_tonnes_year,
      total_operating_costs, annual_paddy_cost, total_manpower_cost,
      annual_utilities, annual_maintenance, annual_insurance,
      admin_expenses, annual_packing_cost, annual_transport_cost,
      annual_depreciation, annual_interest, interest_frac,
      total_fixed_capital, cfgC9, zeroInputs]
  · have hm : marginRule (calculateComprehensiveFinancials cfgC9) =
        some [⟨.margin, .critical⟩] := by
      norm_num [marginRule, profit_margin, calculateComprehensiveFinancials,
        pat, pbt, ebit, ebitda, tax_amount, tax_frac, total_annual_revenue,
        annual_revenue_rice, annual_revenue_bran, annual_revenue_husk,
        annual_revenue_broken, rice_kg_year, rice_tonnes_year,
        paddy_tonnes_year, paddy_tonnes_day, working_days_per_year,
        bran_tonnes_year, husk_tonnes_year, broken_rice_tonnes_year,
        total_operating_costs, annual_paddy_cost, total_manpower_cost,
        annual_utilities, annual_maintenance, annual_insurance,
        admin_expenses, annual_packing_cost, annual_transport_cost,
        annual_depreciation, annual_interest, interest_frac,
        total_fixed_capital, cfgC9, zeroInputs]
    have hb : breakevenRule (calculateComprehensiveFinancials cfgC9) =
        some [⟨.breakevenCap, .critical⟩] := by
      norm_num [breakevenRule, breakeven_capacity,
        calculateComprehensiveFinancials, breakeven_kg,
        contribution_per_unit, revenue_per_kg_rice, variable_cost_per_unit,
        annual_fixed_costs, total_annual_revenue, annual_revenue_rice,
        annual_revenue_bran, annual_revenue_husk, annual_revenue_broken,
        rice_kg_year, rice_tonnes_year, paddy_tonnes_year,
        paddy_tonnes_day, working_days_per_year, bran_tonnes_year,
        husk_tonnes_year, broken_rice_tonnes_year, annual_paddy_cost,
        total_manpower_cost, annual_utilities, annual_maintenance,
        annual_insurance, admin_expenses, annual_packing_cost,
        annual_transport_cost, annual_depreciation, annual_interest,
        interest_frac, total_fixed_capital, cfgC9, zeroInputs]
    have hd : debtEquityRule (calculateComprehensiveFinancials cfgC9) =
        none := by
      norm_num [debtEquityRule, debt_equity, calculateComprehensiveFinancials,
        equity_amount, total_project_cost, total_fixed_capital,
        cfgC9, zeroInputs]
    unfold generateAiInsights
    rw [hm, hb, hd]
    rfl

/-- C9 amended: when the computed net margin (PAT over revenue, times
100) is strictly below 5 with positive revenue AND the call completes
(no rule group hits one of its unguarded divisions and raises
ZeroDivisionError), the returned insight list contains exactly one
margin-group insight and it is critical, and its restriction to every
other rule group is exactly that group's standalone evaluation — the
groups are independent and may add further insights across all
categories in the same call. -/
theorem C9_low_margin_critical (i : Inputs) (l : List Insight)
    (h1 : 0 < (calculateComprehensiveFinancials i).total_annual_revenue)
    (h2 : (calculateComprehensiveFinancials i).pat /
        (calculateComprehensiveFinancials i).total_annual_revenue * 100 <
      5)
    (hcall : generateAiInsights (calculateComprehensiveFinancials i) i =
      some l) :
    l.filter (fun x => decide (x.group = RuleGroup.margin)) =
      [⟨.margin, .critical⟩] ∧
    ∀ g, g ≠ RuleGroup.margin → ∃ lg,
      ruleOf g (calculateComprehensiveFinancials i) i = some lg ∧
      l.filter (fun x => decide (x.group = g)) = lg := by
  constructor
  · obtain ⟨lm, hm, hfm⟩ := filter_group_generate
      (calculateComprehensiveFinancials i) i l hcall RuleGroup.margin
    have hm' : marginRule (calculateComprehensiveFinancials i) =
        some lm := hm
    have hpm : profit_margin (calculateComprehensiveFinancials i) =
        (calculateComprehensiveFinancials i).pat /
          (calculateComprehensiveFinancials i).total_annual_revenue *
          100 := by
      unfold profit_margin
      rw [if_pos h1]
    unfold marginRule at hm'
    rw [hpm, if_pos h2] at hm'
    split at hm'
    · exact absurd hm' (by simp)
    · rw [hfm]
      exact (Option.some.inj hm').symm
  · intro g _
    exact filter_group_generate (calculateComprehensiveFinancials i) i l
      hcall g

/-- C9 witness: cfgC9b (like cfgC9 but with working capital 100, so
project cost and equity are positive and no group raises) has revenue
60000 and margin -100 percent; the call completes with the thirteen
groups' emissions, and its margin-group part is the single critical
insight. -/
theorem C9_low_margin_critical_witness :
    0 < (calculateComprehensiveFinancials cfgC9b).total_annual_revenue ∧
      (calculateComprehensiveFinancials cfgC9b).pat /
          (calculateComprehensiveFinancials cfgC9b).total_annual_revenue *
          100 < 5 ∧
      generateAiInsights (calculateComprehensiveFinancials cfgC9b) cfgC9b =
        some [⟨.margin, .critical⟩, ⟨.breakevenCap, .critical⟩,
          ⟨.debtEquityGrp, .recommendation⟩, ⟨.cashFlowGrp, .critical⟩,
          ⟨.workingCap, .warning⟩, ⟨.recoveryGrp, .positive⟩,
          ⟨.hoursGrp, .recommendation⟩, ⟨.roi5, .warning⟩,
          ⟨.paybackGrp, .warning⟩, ⟨.priceGrp, .warning⟩,
          ⟨.rawMaterial, .positive⟩, ⟨.manpowerGrp, .recommendation⟩,
          ⟨.seasonal, .recommendation⟩] ∧
      ([⟨.margin, .critical⟩, ⟨.breakevenCap, .critical⟩,
            ⟨.debtEquityGrp, .recommendation⟩, ⟨.cashFlowGrp, .critical⟩,
            ⟨.workingCap, .warning⟩, ⟨.recoveryGrp, .positive⟩,
            ⟨.hoursGrp, .recommendation⟩, ⟨.roi5, .warning⟩,
            ⟨.paybackGrp, .warning⟩, ⟨.priceGrp, .warning⟩,
            ⟨.rawMaterial, .positive⟩, ⟨.manpowerGrp, .recommendation⟩,
            ⟨.seasonal, .recommendation⟩] : List Insight).filter
          (fun x => decide (x.group = RuleGroup.margin)) =
        [⟨.margin, .critical⟩] := by
  have h1 : 0 <
      (calculateComprehensiveFinancials cfgC9b).total_annual_revenue := by
    norm_num [calculateComprehensiveFinancials, total_annual_revenue,
      annual_revenue_rice, annual_revenue_bran, annual_revenue_husk,
      annual_revenue_broken, rice_kg_year, rice_tonnes_year,
      paddy_tonnes_year, paddy_tonnes_day, working_days_per_year,
      bran_tonnes_year, husk_tonnes_year, broken_rice_tonnes_year,
      cfgC9b, zeroInputs]
  have h2 : (calculateComprehensiveFinancials cfgC9b).pat /
      (calculateComprehensiveFinancials cfgC9b).total_annual_revenue *
      100 < 5 := by
    norm_num [calculateComprehensiveFinancials, pat, pbt, ebit, ebitda,
      tax_amount, tax_frac, gross_profit, total_annual_revenue,
      annual_revenue_rice, annual_revenue_bran, annual_revenue_husk,
      annual_revenue_broken, rice_kg_year, rice_tonnes_year,
      paddy_tonnes_year, paddy_tonnes_day, working_days_per_year,
      bran_tonnes_year, husk_tonnes_year, broken_rice_tonnes_year,
      total_operating_costs, annual_paddy_cost, total_manpower_cost,
      annual_utilities, annual_maintenance, annual_insurance,
      admin_expenses, annual_packing_cost, annual_transport_cost,
      annual_depreciation, annual_interest, interest_frac,
      total_fixed_capital, cfgC9b, zeroInputs]
  have ha1 : marginRule (calculateComprehensiveFinancials cfgC9b) =
      some [⟨.margin, .critical⟩] := by
    norm_num [marginRule, profit_margin, calculateComprehensiveFinancials,
      pat, pbt, ebit, ebitda, tax_amount, tax_frac, total_annual_revenue,
      annual_revenue_rice, annual_revenue_bran, annual_revenue_husk,
      annual_revenue_broken, rice_kg_year, rice_tonnes_year,
      paddy_tonnes_year, paddy_tonnes_day, working_days_per_year,
      bran_tonnes_year, husk_tonnes_year, broken_rice_tonnes_year,
      total_operating_costs, annual_paddy_cost, total_manpower_cost,
      annual_utilities, annual_maintenance, annual_insurance,
      admin_expenses, annual_packing_cost, annual_transport_cost,
      annual_depreciation, annual_interest, interest_frac,
      total_fixed_capital, cfgC9b, zeroInputs]
  have ha2 : breakevenRule (calculateComprehensiveFinancials cfgC9b) =
      some [⟨.breakevenCap, .critical⟩] := by
    norm_num [breakevenRule, breakeven_capacity,
      calculateComprehensiveFinancials, breakeven_kg, contribution_per_unit,
      revenue_per_kg_rice, variable_cost_per_unit, annual_fixed_costs,
      total_annual_revenue, annual_revenue_rice, annual_revenue_bran,
      annual_revenue_husk, annual_revenue_broken, rice_kg_year,
      rice_tonnes_year, paddy_tonnes_year, paddy_tonnes_day,
      working_days_per_year, bran_tonnes_year, husk_tonnes_year,
      broken_rice_tonnes_year, annual_paddy_cost, total_manpower_cost,
      annual_utilities, annual_maintenance, annual_insurance,
      admin_expenses, annual_packing_cost, annual_transport_cost,
      annual_depreciation, annual_interest, interest_frac,
      total_fixed_capital, cfgC9b, zeroInputs]
  have ha3 : debtEquityRule (calculateComprehensiveFinancials cfgC9b) =
      some [⟨.debtEquityGrp, .recommendation⟩] := by
    norm_num [debtEquityRule, debt_equity, calculateComprehensiveFinancials,
      equity_amount, total_project_cost, total_fixed_capital,
      cfgC9b, zeroInputs]
  have ha4 : cashFlowRule (calculateComprehensiveFinancials cfgC9b) =
      some [⟨.cashFlowGrp, .critical⟩] := by
    norm_num [cashFlowRule, monthly_cash_flow,
      calculateComprehensiveFinancials, annual_cash_flow,
      principal_repayment, annual_loan_payment, emi, annual_interest,
      interest_frac, pat, pbt, ebit, ebitda, tax_amount, tax_frac,
      total_annual_revenue, annual_revenue_rice, annual_revenue_bran,
      annual_revenue_husk, annual_revenue_broken, rice_kg_year,
      rice_tonnes_year, paddy_tonnes_year, paddy_tonnes_day,
      working_days_per_year, bran_tonnes_year, husk_tonnes_year,
      broken_rice_tonnes_year, total_operating_costs, annual_paddy_cost,
      total_manpower_cost, annual_utilities, annual_maintenance,
      annual_insurance, admin_expenses, annual_packing_cost,
      annual_transport_cost, annual_depreciation, total_fixed_capital,
      cfgC9b, zeroInputs]
  have ha5 : workingCapitalRule (calculateComprehensiveFinancials cfgC9b) =
      some [⟨.workingCap, .warning⟩] := by
    norm_num [workingCapitalRule, working_capital_months,
      calculateComprehensiveFinancials, total_operating_costs,
      annual_paddy_cost, total_manpower_cost, annual_utilities,
      annual_maintenance, annual_insurance, admin_expenses,
      annual_packing_cost, annual_transport_cost, rice_kg_year,
      rice_tonnes_year, paddy_tonnes_year, paddy_tonnes_day,
      working_days_per_year, total_fixed_capital, cfgC9b, zeroInputs]
  have ha6 : recoveryRule cfgC9b = some [⟨.recoveryGrp, .positive⟩] := by
    norm_num [recoveryRule, cfgC9b, zeroInputs]
  have ha7 : hoursRule cfgC9b = some [⟨.hoursGrp, .recommendation⟩] := by
    norm_num [hoursRule, cfgC9b, zeroInputs]
  have ha8 : roi5Rule (calculateComprehensiveFinancials cfgC9b) =
      some [⟨.roi5, .warning⟩] := by
    norm_num [roi5Rule, roi_5yr, total_5yr_profit,
      calculateComprehensiveFinancials, yearly_data, projectYears,
      projStep, projCtx, annual_growth, tax_frac, annual_loan_payment,
      emi, interest_frac, total_annual_revenue, annual_revenue_rice,
      annual_revenue_bran, annual_revenue_husk, annual_revenue_broken,
      rice_kg_year, rice_tonnes_year, paddy_tonnes_year, paddy_tonnes_day,
      working_days_per_year, bran_tonnes_year, husk_tonnes_year,
      broken_rice_tonnes_year, total_operating_costs, annual_paddy_cost,
      total_manpower_cost, annual_utilities, annual_maintenance,
      annual_insurance, admin_expenses, annual_packing_cost,
      annual_transport_cost, annual_depreciation, total_project_cost,
      total_fixed_capital, cfgC9b, zeroInputs, min_def, max_def]
  have ha9 : paybackRule (calculateComprehensiveFinancials cfgC9b) =
      some [⟨.paybackGrp, .warning⟩] := by
    norm_num [paybackRule, paybackVerdict, firstCrossIdx,
      calculateComprehensiveFinancials, yearly_data, projectYears,
      projStep, projCtx, annual_growth, tax_frac, annual_loan_payment,
      emi, interest_frac, total_annual_revenue, annual_revenue_rice,
      annual_revenue_bran, annual_revenue_husk, annual_revenue_broken,
      rice_kg_year, rice_tonnes_year, paddy_tonnes_year, paddy_tonnes_day,
      working_days_per_year, bran_tonnes_year, husk_tonnes_year,
      broken_rice_tonnes_year, total_operating_costs, annual_paddy_cost,
      total_manpower_cost, annual_utilities, annual_maintenance,
      annual_insurance, admin_expenses, annual_packing_cost,
      annual_transport_cost, annual_depreciation, equity_amount,
      total_project_cost, total_fixed_capital, cfgC9b, zeroInputs,
      min_def, max_def, List.getLast?]
  have ha10 : priceRule cfgC9b = some [⟨.priceGrp, .warning⟩] := by
    norm_num [priceRule, cfgC9b, zeroInputs]
  have ha11 : rawMaterialRule (calculateComprehensiveFinancials cfgC9b) =
      some [⟨.rawMaterial, .positive⟩] := by
    norm_num [rawMaterialRule, raw_material_percent,
      calculateComprehensiveFinancials, annual_paddy_cost,
      total_annual_revenue, annual_revenue_rice, annual_revenue_bran,
      annual_revenue_husk, annual_revenue_broken, rice_kg_year,
      rice_tonnes_year, paddy_tonnes_year, paddy_tonnes_day,
      working_days_per_year, bran_tonnes_year, husk_tonnes_year,
      broken_rice_tonnes_year, cfgC9b, zeroInputs]
  have ha12 : manpowerRule (calculateComprehensiveFinancials cfgC9b)
      cfgC9b = some [⟨.manpowerGrp, .recommendation⟩] := by
    norm_num [manpowerRule, revenue_per_employee,
      calculateComprehensiveFinancials, total_annual_revenue,
      annual_revenue_rice, annual_revenue_bran, annual_revenue_husk,
      annual_revenue_broken, rice_kg_year, rice_tonnes_year,
      paddy_tonnes_year, paddy_tonnes_day, working_days_per_year,
      bran_tonnes_year, husk_tonnes_year, broken_rice_tonnes_year,
      cfgC9b, zeroInputs]
  have ha13 : seasonalRule cfgC9b =
      some [⟨.seasonal, .recommendation⟩] := by
    norm_num [seasonalRule, cfgC9b, zeroInputs]
  have hcall : generateAiInsights (calculateComprehensiveFinancials cfgC9b)
      cfgC9b =
      some [⟨.margin, .critical⟩, ⟨.breakevenCap, .critical⟩,
        ⟨.debtEquityGrp, .recommendation⟩, ⟨.cashFlowGrp, .critical⟩,
        ⟨.workingCap, .warning⟩, ⟨.recoveryGrp, .positive⟩,
        ⟨.hoursGrp, .recommendation⟩, ⟨.roi5, .warning⟩,
        ⟨.paybackGrp, .warning⟩, ⟨.priceGrp, .warning⟩,
        ⟨.rawMaterial, .positive⟩, ⟨.manpowerGrp, .recommendation⟩,
        ⟨.seasonal, .recommendation⟩] := by
    unfold generateAiInsights
    rw [ha1, ha2, ha3, ha4, ha5, ha6, ha7, ha8, ha9, ha10, ha11, ha12,
      ha13]
    rfl
  exact ⟨h1, h2, hcall,
    (C9_low_margin_critical cfgC9b _ h1 h2 hcall).1⟩

/-- C10: for a valid financed configuration (nonnegative loan and rate,
tenure at least one year) whose annual loan payment net of first-year
interest does not exceed the loan, the first projected row reproduces the
single-year cascade: growth factor 1 makes Revenue, Operating Costs,
EBITDA, Depreciation and EBIT coincide, Interest equals loan times rate,
the tax and PAT stages coincide, and Cash Flow equals the single-year
annual cash flow. -/
theorem C10_year1_matches_single_year (i : Inputs)
    (h0 : 0 ≤ i.loan_amount) (h2 : 0 ≤ i.loan_interest_rate)
    (h3 : 1 ≤ i.loan_tenure)
    (hp : annual_loan_payment i - annual_interest i ≤ i.loan_amount) :
    (calculateComprehensiveFinancials i).yearly_data.head? =
        some (firstYearRow i) ∧
      (firstYearRow i).revenue = total_annual_revenue i ∧
      (firstYearRow i).operating_costs = total_operating_costs i ∧
      (firstYearRow i).ebitda = ebitda i ∧
      (firstYearRow i).depreciation = annual_depreciation i ∧
      (firstYearRow i).ebit = ebit i ∧
      (firstYearRow i).interest = annual_interest i ∧
      (firstYearRow i).pbt = pbt i ∧
      (firstYearRow i).tax = tax_amount i ∧
      (firstYearRow i).pat = pat i ∧
      (firstYearRow i).cash_flow = annual_cash_flow i := by
  have hfr : 0 ≤ interest_frac i := by
    unfold interest_frac
    positivity
  have hALPnn : 0 ≤ annual_loan_payment i :=
    le_trans (mul_nonneg h0 hfr) (loan_rate_le_alp i h0 h2 h3)
  have hint : (if 0 < i.loan_amount
      then i.loan_amount * interest_frac i else 0) = annual_interest i := by
    unfold annual_interest
    rcases lt_or_eq_of_le h0 with hl | hl
    · rw [if_pos hl]
    · rw [← hl, if_neg (lt_irrefl 0), zero_mul]
  have hprin : (if 0 < i.loan_amount then
      min (annual_loan_payment i -
          (if 0 < i.loan_amount then i.loan_amount * interest_frac i else 0))
        i.loan_amount
      else 0) = principal_repayment i := by
    unfold principal_repayment
    rcases lt_or_eq_of_le h0 with hl | hl
    · simp only [if_pos hl]
      rcases lt_or_eq_of_le hALPnn with ha | ha
      · rw [if_pos ha, min_eq_left]
        · unfold annual_interest
          rfl
        · have hp' := hp
          unfold annual_interest at hp'
          exact hp'
      · have hlf : i.loan_amount * interest_frac i = 0 :=
          le_antisymm (ha ▸ loan_rate_le_alp i h0 h2 h3)
            (mul_nonneg h0 hfr)
        rw [← ha, if_neg (lt_irrefl 0), hlf]
        simp [min_eq_left (le_of_lt hl)]
    · have halp0 : annual_loan_payment i = 0 := by
        unfold annual_loan_payment
        rw [if_neg]
        rintro ⟨hc, _⟩
        rw [← hl] at hc
        exact lt_irrefl 0 hc
      rw [← hl, if_neg (lt_irrefl 0), halp0, if_neg (lt_irrefl 0)]
  refine ⟨rfl, ?_, ?_, ?_, ?_, ?_, ?_, ?_, ?_, ?_, ?_⟩
  · show total_annual_revenue i * (1 + annual_growth i) ^ (1 - 1) = _
    norm_num
  · show total_operating_costs i * (1 + annual_growth i) ^ (1 - 1) = _
    norm_num
  · show total_annual_revenue i * (1 + annual_growth i) ^ (1 - 1) -
      total_operating_costs i * (1 + annual_growth i) ^ (1 - 1) = _
    unfold ebitda
    norm_num
  · rfl
  · show total_annual_revenue i * (1 + annual_growth i) ^ (1 - 1) -
      total_operating_costs i * (1 + annual_growth i) ^ (1 - 1) -
      annual_depreciation i = _
    unfold ebit ebitda
    norm_num
  · exact hint
  · show total_annual_revenue i * (1 + annual_growth i) ^ (1 - 1) -
      total_operating_costs i * (1 + annual_growth i) ^ (1 - 1) -
      annual_depreciation i -
      (if 0 < i.loan_amount then i.loan_amount * interest_frac i else 0) = _
    rw [hint]
    unfold pbt ebit ebitda
    norm_num
  · show max 0 ((total_annual_revenue i * (1 + annual_growth i) ^ (1 - 1) -
      total_operating_costs i * (1 + annual_growth i) ^ (1 - 1) -
      annual_depreciation i -
      (if 0 < i.loan_amount then i.loan_amount * interest_frac i else 0)) *
        tax_frac i) = _
    rw [hint]
    unfold tax_amount pbt ebit ebitda
    norm_num
  · show (total_annual_revenue i * (1 + annual_growth i) ^ (1 - 1) -
      total_operating_costs i * (1 + annual_growth i) ^ (1 - 1) -
      annual_depreciation i -
      (if 0 < i.loan_amount then i.loan_amount * interest_frac i else 0)) -
      max 0 ((total_annual_revenue i * (1 + annual_growth i) ^ (1 - 1) -
        total_operating_costs i * (1 + annual_growth i) ^ (1 - 1) -
        annual_depreciation i -
        (if 0 < i.loan_amount then i.loan_amount * interest_frac i else 0)) *
          tax_frac i) = _
    rw [hint]
    unfold pat tax_amount pbt ebit ebitda
    norm_num
  · show (total_annual_revenue i * (1 + annual_growth i) ^ (1 - 1) -
      total_operating_costs i * (1 + annual_growth i) ^ (1 - 1) -
      annual_depreciation i -
      (if 0 < i.loan_amount then i.loan_amount * interest_frac i else 0)) -
      max 0 ((total_annual_revenue i * (1 + annual_growth i) ^ (1 - 1) -
        total_operating_costs i * (1 + annual_growth i) ^ (1 - 1) -
        annual_depreciation i -
        (if 0 < i.loan_amount then i.loan_amount * interest_frac i else 0)) *
          tax_frac i) +
      annual_depreciation i -
      (if 0 < i.loan_amount then
        min (annual_loan_payment i -
            (if 0 < i.loan_amount then i.loan_amount * interest_frac i
            else 0))
          i.loan_amount
        else 0) = _
    rw [hprin, hint]
    unfold annual_cash_flow pat tax_amount pbt ebit ebitda
    norm_num

/-- C10 witness: cfgC10 (loan 100 at 12 percent over 1 year, project
cost 200) satisfies the hypotheses — in particular its annual loan
payment minus first-year interest stays below the loan — and the first
projected row's head position, Interest and Cash Flow agree with the
single-year cascade. -/
theorem C10_year1_matches_single_year_witness :
    0 ≤ cfgC10.loan_amount ∧ 0 ≤ cfgC10.loan_interest_rate ∧
      1 ≤ cfgC10.loan_tenure ∧
      annual_loan_payment cfgC10 - annual_interest cfgC10 ≤
        cfgC10.loan_amount ∧
      (calculateComprehensiveFinancials cfgC10).yearly_data.head? =
        some (firstYearRow cfgC10) ∧
      (firstYearRow cfgC10).interest = annual_interest cfgC10 ∧
      (firstYearRow cfgC10).cash_flow = annual_cash_flow cfgC10 := by
  have hA : (0:ℚ) ≤ cfgC10.loan_amount := by
    norm_num [cfgC10, zeroInputs]
  have hB : (0:ℚ) ≤ cfgC10.loan_interest_rate := by
    norm_num [cfgC10, zeroInputs]
  have hC : 1 ≤ cfgC10.loan_tenure := by
    norm_num [cfgC10, zeroInputs]
  have hD : annual_loan_payment cfgC10 - annual_interest cfgC10 ≤
      cfgC10.loan_amount := by
    norm_num [annual_loan_payment, emi, annual_interest, interest_frac,
      cfgC10, zeroInputs]
  have H := C10_year1_matches_single_year cfgC10 hA hB hC hD
  exact ⟨hA, hB, hC, hD, H.1, H.2.2.2.2.2.2.1, H.2.2.2.2.2.2.2.2.2.2⟩

end RiceMill
